import Mathlib

/-!
# Verification of the E710 host-side inventory control engine

A shallow embedding of the continuous-inventory state machine of
`src/ex10_api/ex10_reader.c`, the regulatory channel timer of
`src/ex10_regulatory/ex10_regulatory_regions/ex10_regulatory_etsi_lower.c`,
and the bounds-checked copy helpers of `board/e710_ref_design/ex10_osal_posix.c`.

Modelling conventions:
* C machine integers (`uint32_t`) are `Nat` with explicit `% 2^32` where the C
  arithmetic can wrap; fields that the claims never push near their width
  (session counters) are plain `Nat`.
* The global `reader` singleton is threaded explicitly: each C function that
  mutates it becomes a Lean function from the old `Ex10ReaderPrivate` to the new.
* Calls into the external device layers (`Ex10Protocol`, `Ex10RfPower`,
  `Ex10Inventory`, `Ex10Ops`) are an oracle `DeviceEnv`: boolean device status
  plus the sequence of `Ex10Result` values those calls would return.  Each
  device command that the reader issues is recorded in an output trace.
* Synthetic packets pushed by the reader into the event queue are collected in
  an output list, in the order the C code enqueues them.
-/

set_option maxHeartbeats 1000000

namespace E710

/-! ## 32-bit arithmetic helpers -/

def U32_MOD : Nat := 2 ^ 32

def UINT32_MAX : Nat := U32_MOD - 1

/-- `uint32_t` subtraction `a - b` (two's complement wraparound). -/
def u32sub (a b : Nat) : Nat := (a % U32_MOD + (U32_MOD - b % U32_MOD)) % U32_MOD

/-- `uint32_t` addition with wraparound. -/
def u32add (a b : Nat) : Nat := (a + b) % U32_MOD

theorem u32sub_of_le (a b : Nat) (hba : b ≤ a) (ha : a < U32_MOD) :
    u32sub a b = a - b := by
  unfold u32sub
  have hb : b < U32_MOD := lt_of_le_of_lt hba ha
  rw [Nat.mod_eq_of_lt ha, Nat.mod_eq_of_lt hb]
  have h1 : a + (U32_MOD - b) = U32_MOD + (a - b) := by omega
  rw [h1, Nat.add_mod_left]
  exact Nat.mod_eq_of_lt (by omega)

theorem u32add_of_lt (a b : Nat) (h : a + b < U32_MOD) : u32add a b = a + b := by
  unfold u32add
  exact Nat.mod_eq_of_lt h

/-! ## Regulatory channel timer (`ex10_regulatory_etsi_lower.c`)

The per-channel arrays `channel_last_start`, `channel_last_end` and
`channel_total_time` are modelled as total maps from the channel index to the
stored `uint32_t` value. -/

structure Ex10RegulatoryTimers where
  nominal_ms : Nat
  extended_ms : Nat
  regulatory_ms : Nat
  off_same_channel_ms : Nat
deriving DecidableEq

/-- The `region.regulatory_timers` constant of the ETSI lower region. -/
def etsi_lower_regulatory_timers : Ex10RegulatoryTimers :=
  { nominal_ms := 3800
    extended_ms := 3980
    regulatory_ms := 4000
    off_same_channel_ms := 100 }

structure RegulatoryTimerState where
  channel_last_start : Nat → Nat
  channel_last_end : Nat → Nat
  channel_total_time : Nat → Nat

/-- `regulatory_timer_clear`: zeroes all per-channel state. -/
def regulatory_timer_clear : RegulatoryTimerState :=
  { channel_last_start := fun _ => 0
    channel_last_end := fun _ => 0
    channel_total_time := fun _ => 0 }

/-- `regulatory_timer_set_start(channel, time_ms)`: records the ramp-up time;
if the channel was not off for `off_same_channel_ms`, the idle gap counts
toward on-time, otherwise the accumulated on-time resets to zero. -/
def regulatory_timer_set_start (s : RegulatoryTimerState) (channel : Nat)
    (time_ms : Nat) : RegulatoryTimerState :=
  let time_since_off := u32sub time_ms (s.channel_last_end channel)
  { s with
    channel_last_start := Function.update s.channel_last_start channel (time_ms % U32_MOD)
    channel_total_time :=
      if time_since_off < etsi_lower_regulatory_timers.off_same_channel_ms then
        Function.update s.channel_total_time channel
          (u32add (s.channel_total_time channel) time_since_off)
      else
        Function.update s.channel_total_time channel 0 }

/-- `regulatory_timer_set_end(channel, time_ms)`: records the ramp-down time
and adds the elapsed on-time to the accumulated total. -/
def regulatory_timer_set_end (s : RegulatoryTimerState) (channel : Nat)
    (time_ms : Nat) : RegulatoryTimerState :=
  { s with
    channel_last_end := Function.update s.channel_last_end channel (time_ms % U32_MOD)
    channel_total_time :=
      Function.update s.channel_total_time channel
        (u32add (s.channel_total_time channel)
          (u32sub time_ms (s.channel_last_start channel))) }

/-! ## Bounds-checked memory helpers (`ex10_osal_posix.c`)

A destination buffer of `dst_size` bytes is a `List Nat` of that length, and
likewise for the source; the `size` arguments of the C functions are the list
lengths. -/

def EINVAL : Int := 22

/-- `ex10_memzero(dst_ptr, dst_size)`: writes zero to every destination byte. -/
def ex10_memzero (dst : List Nat) : List Nat :=
  List.replicate dst.length 0

/-- The copy loop of `ex10_memcpy`: `dst_byte_ptr[index] = src_byte_ptr[index]`
for `index < src_size`. -/
def copy_bytes : List Nat → List Nat → List Nat
  | dst, [] => dst
  | [], _ :: _ => []
  | _ :: dtail, s :: stail => s :: copy_bytes dtail stail

/-- `ex10_memcpy(dst_ptr, dst_size, src_ptr, src_size)`: copies when the source
fits, zero-fills the whole destination and returns `EINVAL` otherwise. -/
def ex10_memcpy (dst src : List Nat) : Int × List Nat :=
  if src.length ≤ dst.length then
    (0, copy_bytes dst src)
  else
    (EINVAL, ex10_memzero dst)

theorem copy_bytes_eq_append (dst src : List Nat) (h : src.length ≤ dst.length) :
    copy_bytes dst src = src ++ dst.drop src.length := by
  induction src generalizing dst with
  | nil => simp [copy_bytes]
  | cons s stail ih =>
    cases dst with
    | nil => simp at h
    | cons d dtail =>
      simp only [copy_bytes, List.cons_append, List.length_cons, List.drop_succ_cons]
      have hlen : stail.length ≤ dtail.length := by
        simpa [Nat.succ_le_succ_iff] using h
      rw [ih dtail hlen]

/-! ## Result and error types (`ex10_result.h`, used throughout `ex10_reader.c`)

`struct Ex10Result` is a tagged record: an error flag, the reporting module,
a per-module result code (a C union, modelled as one field per union arm) and
the device `ops_status` detail (operation id and op error code).  Only the
constructors that `ex10_reader.c` reads or writes are enumerated; every other
value is carried by a catch-all constructor. -/

inductive Ex10Module
  | Ex10ModuleUndefined
  | Ex10ModuleDevice
  | Ex10ModuleReader
  | Ex10ModuleOther (n : Nat)
deriving DecidableEq

inductive Ex10DeviceResultCode
  | Ex10DeviceErrorCommandsNoResponse
  | Ex10DeviceErrorCommandsWithResponse
  | Ex10DeviceErrorOps
  | Ex10DeviceErrorOpsTimeout
  | Ex10DeviceCodeOther (n : Nat)
deriving DecidableEq

inductive Ex10SdkResultCode
  | Ex10SdkErrorNullPointer
  | Ex10SdkEventFifoFull
  | Ex10InventoryInvalidParam
  | Ex10SdkLmacOverload
  | Ex10InventorySummaryReasonInvalid
  | Ex10SdkErrorAggBufferOverflow
  | Ex10AboveThreshold
  | Ex10SdkCodeOther (n : Nat)
deriving DecidableEq

/-- `struct OpsStatusFields`: the op id and op error code of a device op. -/
structure OpsStatusFields where
  op_id : Nat
  error : Nat
deriving DecidableEq

/-- Op id of the select-send op (`SendSelectOp`).  The numeric value lives in a
header outside this snapshot; only its identity is used by the code. -/
def SendSelectOp : Nat := 0xB1

/-- Op error code `ErrorInvalidTxState`; numeric value is identity-only. -/
def ErrorInvalidTxState : Nat := 9

/-- Op error code `ErrorNone` (zero). -/
def ErrorNone : Nat := 0

structure Ex10Result where
  error : Bool
  module : Ex10Module
  device_code : Ex10DeviceResultCode
  sdk_code : Ex10SdkResultCode
  ops_status : OpsStatusFields
deriving DecidableEq

def make_ex10_success : Ex10Result :=
  { error := false
    module := .Ex10ModuleUndefined
    device_code := .Ex10DeviceCodeOther 0
    sdk_code := .Ex10SdkCodeOther 0
    ops_status := { op_id := 0, error := 0 } }

def make_ex10_sdk_error (m : Ex10Module) (code : Ex10SdkResultCode) : Ex10Result :=
  { error := true
    module := m
    device_code := .Ex10DeviceCodeOther 0
    sdk_code := code
    ops_status := { op_id := 0, error := 0 } }

/-! ## Inventory configuration and session state (`ex10_reader.c`) -/

/-- `enum InventorySummaryReason` values carried in the `reason` byte of an
`InventoryRoundSummary` packet.  The packet field is a `uint8_t`; the reader's
`switch` only needs the named values to be distinct, with every other byte
falling to the `default` arm. -/
def InventorySummaryNone : Nat := 0

def InventorySummaryDone : Nat := 1

def InventorySummaryHost : Nat := 2

def InventorySummaryRegulatory : Nat := 3

def InventorySummaryEventFifoFull : Nat := 4

def InventorySummaryTxNotRampedUp : Nat := 5

def InventorySummaryInvalidParam : Nat := 6

def InventorySummaryLmacOverload : Nat := 7

def InventorySummaryUnsupported : Nat := 8

/-- Gen2 inventoried-flag target values (`target_A` / `target_B`). -/
def target_A : Nat := 0

def target_B : Nat := 1

/-- `struct InventoryRoundControlFields`: the fields `ex10_reader.c` reads or
writes (`initial_q`, `session`, `target`); the remaining bit-fields are carried
uninterpreted in `other_fields` and only ever copied wholesale. -/
structure InventoryRoundControlFields where
  initial_q : Nat
  session : Nat
  target : Nat
  other_fields : Nat
deriving DecidableEq

/-- `struct InventoryRoundControl_2Fields`: the two carried LMAC counters; the
remaining fields are carried uninterpreted. -/
structure InventoryRoundControl_2Fields where
  starting_min_q_count : Nat
  starting_max_queries_since_valid_epc_count : Nat
  other_fields : Nat
deriving DecidableEq

/-- `enum InvState`: phase of the continuous-inventory session. -/
inductive InvState
  | InvIdle
  | InvOngoing
  | InvStopRequested
deriving DecidableEq

/-- `enum StopReason` as used by `ex10_reader.c`.  The last four constructors
are the per-error stop reasons produced by
`ex10_result_to_continuous_inventory_error` (see its doc comment). -/
inductive StopReason
  | SRNone
  | SRHost
  | SRMaxNumberOfRounds
  | SRMaxNumberOfTags
  | SRMaxDuration
  | SROpError
  | SRSdkTimeoutError
  | SRDeviceCommandError
  | SRDeviceAggregateBufferOverflow
  | SRDeviceRampCallbackError
  | SRDeviceEventFifoFull
  | SRDeviceInventoryInvalidParam
  | SRDeviceLmacOverload
  | SRDeviceInventorySummaryReasonInvalid
deriving DecidableEq

/-- `struct StopConditions`: caller-supplied stop thresholds. -/
structure StopConditions where
  max_number_of_rounds : Nat
  max_number_of_tags : Nat
  max_duration_us : Nat
deriving DecidableEq

/-- `struct ContinuousInventoryState`. -/
structure ContinuousInventoryState where
  state : InvState
  done_reason : Nat
  initial_inventory_config : InventoryRoundControlFields
  previous_q : Nat
  min_q_count : Nat
  queries_since_valid_epc_count : Nat
  stop_reason : StopReason
  round_count : Nat
  tag_count : Nat
  target : Nat
deriving DecidableEq

/-- `struct ReaderInventoryParams`. -/
structure ReaderInventoryParams where
  antenna : Nat
  rf_mode : Nat
  tx_power_cdbm : Int
  inventory_config : InventoryRoundControlFields
  inventory_config_2 : InventoryRoundControl_2Fields
  send_selects : Bool
  stop_conditions : StopConditions
  dual_target : Bool
  remain_on : Bool
  start_time_us : Nat
deriving DecidableEq

/-- `struct Ex10ReaderPrivate` (the global `reader`), without the analog rx
cache, which no claim touches. -/
structure Ex10ReaderPrivate where
  inventory_params : ReaderInventoryParams
  inventory_state : ContinuousInventoryState
deriving DecidableEq

def inventory_config_zero : InventoryRoundControlFields :=
  { initial_q := 0, session := 0, target := 0, other_fields := 0 }

def inventory_config_2_zero : InventoryRoundControl_2Fields :=
  { starting_min_q_count := 0
    starting_max_queries_since_valid_epc_count := 0
    other_fields := 0 }

/-- The static initializer of the `reader` singleton. -/
def reader_init : Ex10ReaderPrivate :=
  { inventory_params :=
      { antenna := 0
        rf_mode := 0
        tx_power_cdbm := 0
        inventory_config := inventory_config_zero
        inventory_config_2 := inventory_config_2_zero
        send_selects := false
        stop_conditions := { max_number_of_rounds := 0, max_number_of_tags := 0, max_duration_us := 0 }
        dual_target := false
        remain_on := false
        start_time_us := 0 }
    inventory_state :=
      { state := .InvIdle
        done_reason := InventorySummaryNone
        initial_inventory_config := inventory_config_zero
        previous_q := 0
        min_q_count := 0
        queries_since_valid_epc_count := 0
        stop_reason := .SRNone
        round_count := 0
        tag_count := 0
        target := target_A } }

/-! ## Event packets -/

/-- `enum EventPacketType`, restricted to the tags `ex10_reader.c` matches on;
all other tags behave identically there. -/
inductive PacketType
  | TagRead
  | InventoryRoundSummary
  | ContinuousInventorySummary
  | OtherPacket (n : Nat)
deriving DecidableEq

/-- `struct InventoryRoundSummary` static packet data: the fields the reader
reads from an incoming round summary. -/
structure InventoryRoundSummaryFields where
  duration_us : Nat
  final_q : Nat
  min_q_count : Nat
  queries_since_valid_epc_count : Nat
  reason : Nat
deriving DecidableEq

/-- A decoded `struct EventFifoPacket` as seen by `fifo_data_handler`.  The
static-data union is modelled by its `inventory_round_summary` arm, which is
read only when `packet_type` says so; `is_valid` is the decoder's verdict
(`get_packet_type_valid`). -/
structure EventFifoPacket where
  packet_type : PacketType
  us_counter : Nat
  inventory_round_summary : InventoryRoundSummaryFields
  is_valid : Bool
deriving DecidableEq

/-- `struct ContinuousInventorySummary`: the synthetic final summary packet.
The `reason` byte is stored as the `StopReason` it encodes. -/
structure ContinuousInventorySummary where
  duration_us : Nat
  number_of_inventory_rounds : Nat
  number_of_tags : Nat
  reason : StopReason
  last_op_id : Nat
  last_op_error : Nat
deriving DecidableEq

/-- A synthetic packet pushed by the reader into the event queue. -/
inductive EmittedPacket
  | ex10ResultPacket (result : Ex10Result) (us_counter : Nat)
  | summaryPacket (summary : ContinuousInventorySummary) (us_counter : Nat)
deriving DecidableEq

/-! ## Device oracle and command trace

External calls of `ex10_reader.c` into `Ex10Protocol` / `Ex10RfPower` /
`Ex10Inventory` (spec §6: synchronous device ops that may fail with a status
carrying op id and error code).  Boolean device state is sampled once; result
sequences list the value each successive call of that kind returns, defaulting
to success when exhausted. -/

structure DeviceEnv where
  is_op_currently_running : Bool
  cw_is_on : Bool
  set_rf_mode_result : Ex10Result
  ramp_results : List Ex10Result
  run_inventory_results : List Ex10Result
deriving DecidableEq

def headResult (l : List Ex10Result) : Ex10Result :=
  l.headD make_ex10_success

/-- A device command issued by the reader, recorded in an output trace:
`run_inventory` carries the exact round configuration sent to the device. -/
inductive DeviceCommand
  | SetRfMode (rf_mode : Nat)
  | RampForInventory
  | RunInventory (inventory_config : InventoryRoundControlFields)
      (inventory_config_2 : InventoryRoundControl_2Fields) (send_selects : Bool)
deriving DecidableEq

/-! ## The continuous-inventory state machine (`ex10_reader.c`) -/

/-- `start_inventory` (`ex10_reader.c:793`): returns immediately with success
when an op is already running; otherwise stores target/antenna/rf-mode, sets
the RF mode, ramps if the carrier is off, runs the inventory op, and retries
exactly once after re-ramping on the select-send invalid-tx-state race.
Returns the `Ex10Result`, the updated reader, and the issued command trace. -/
def start_inventory (env : DeviceEnv) (r : Ex10ReaderPrivate)
    (antenna : Nat) (rf_mode : Nat) (tx_power_cdbm : Int)
    (inventory_config : InventoryRoundControlFields)
    (inventory_config_2 : InventoryRoundControl_2Fields)
    (send_selects : Bool) (remain_on : Bool) :
    Ex10Result × Ex10ReaderPrivate × List DeviceCommand :=
  let _ := tx_power_cdbm
  let _ := remain_on
  if env.is_op_currently_running then
    (make_ex10_success, r, [])
  else
    let r :=
      { r with
        inventory_state := { r.inventory_state with target := inventory_config.target }
        inventory_params := { r.inventory_params with antenna := antenna, rf_mode := rf_mode } }
    let set_rf_res := env.set_rf_mode_result
    let trace0 : List DeviceCommand := [.SetRfMode rf_mode]
    if set_rf_res.error then
      (set_rf_res, r, trace0)
    else
      let ramp_res := if env.cw_is_on then make_ex10_success else headResult env.ramp_results
      let ramp_trace : List DeviceCommand := if env.cw_is_on then [] else [.RampForInventory]
      let remaining_ramps := if env.cw_is_on then env.ramp_results else env.ramp_results.tail
      if ramp_res.error then
        (ramp_res, r, trace0 ++ ramp_trace)
      else
        let run_res := headResult env.run_inventory_results
        let trace1 := trace0 ++ ramp_trace ++
          [.RunInventory inventory_config inventory_config_2 send_selects]
        if run_res.error = true ∧ run_res.ops_status.op_id = SendSelectOp ∧
            run_res.ops_status.error = ErrorInvalidTxState then
          let ramp2_res := headResult remaining_ramps
          let trace2 := trace1 ++ [.RampForInventory]
          if ramp2_res.error then
            (ramp2_res, r, trace2)
          else
            let run2_res := headResult env.run_inventory_results.tail
            (run2_res, r,
              trace2 ++ [.RunInventory inventory_config inventory_config_2 send_selects])
        else
          (run_res, r, trace1)

/-- `continuous_inventory` (`ex10_reader.c:671`): NULL config pointers are
`Option.none`; `get_device_time()` is the `now_us` argument. -/
def continuous_inventory (env : DeviceEnv) (now_us : Nat) (r : Ex10ReaderPrivate)
    (antenna : Nat) (rf_mode : Nat) (tx_power_cdbm : Int)
    (inventory_config : Option InventoryRoundControlFields)
    (inventory_config_2 : Option InventoryRoundControl_2Fields)
    (send_selects : Bool)
    (stop_conditions : Option StopConditions)
    (dual_target : Bool) (remain_on : Bool) :
    Ex10Result × Ex10ReaderPrivate × List DeviceCommand :=
  match stop_conditions, inventory_config, inventory_config_2 with
  | some sc, some cfg, some cfg2 =>
    let st : ContinuousInventoryState :=
      { state := .InvOngoing
        stop_reason := .SRNone
        round_count := 0
        initial_inventory_config := cfg
        previous_q := 0
        min_q_count := 0
        queries_since_valid_epc_count := 0
        done_reason := InventorySummaryNone
        tag_count := 0
        target := cfg.target }
    let params : ReaderInventoryParams :=
      { antenna := antenna
        rf_mode := rf_mode
        tx_power_cdbm := tx_power_cdbm
        inventory_config := cfg
        inventory_config_2 := cfg2
        send_selects := send_selects
        stop_conditions := sc
        dual_target := dual_target
        remain_on := remain_on
        start_time_us := now_us }
    let r1 : Ex10ReaderPrivate := { inventory_state := st, inventory_params := params }
    let out := start_inventory env r1 antenna rf_mode tx_power_cdbm cfg cfg2
      send_selects remain_on
    if out.1.error then
      (out.1,
       { out.2.1 with inventory_state := { out.2.1.inventory_state with state := .InvIdle } },
       out.2.2)
    else
      out
  | _, _, _ =>
    (make_ex10_sdk_error .Ex10ModuleReader .Ex10SdkErrorNullPointer, r, [])

/-- `inventory` (`ex10_reader.c:867`): plain wrapper around `start_inventory`. -/
def inventory (env : DeviceEnv) (r : Ex10ReaderPrivate)
    (antenna : Nat) (rf_mode : Nat) (tx_power_cdbm : Int)
    (inventory_config : InventoryRoundControlFields)
    (inventory_config_2 : InventoryRoundControl_2Fields)
    (send_selects : Bool) (remain_on : Bool) :
    Ex10Result × Ex10ReaderPrivate × List DeviceCommand :=
  start_inventory env r antenna rf_mode tx_power_cdbm inventory_config
    inventory_config_2 send_selects remain_on

/-- `stop_transmitting` (`ex10_reader.c:1091`), restricted to its session-state
effect (the unconditional carrier ramp-down is a device command). -/
def stop_transmitting (r : Ex10ReaderPrivate) : Ex10ReaderPrivate :=
  if r.inventory_state.state ≠ .InvIdle then
    { r with inventory_state := { r.inventory_state with state := .InvStopRequested } }
  else
    r

/-- The `elapsed_us` computation of `check_stop_conditions`, including the
explicit `uint32_t` wrap handling for packets time-stamped before the session
start. -/
def elapsed_us (r : Ex10ReaderPrivate) (timestamp_us : Nat) : Nat :=
  if r.inventory_params.start_time_us > timestamp_us then
    (UINT32_MAX - r.inventory_params.start_time_us) + timestamp_us + 1
  else
    timestamp_us - r.inventory_params.start_time_us

def set_stop_reason (r : Ex10ReaderPrivate) (sr : StopReason) : Ex10ReaderPrivate :=
  { r with inventory_state := { r.inventory_state with stop_reason := sr } }

/-- `check_stop_conditions` (`ex10_reader.c:312`): keeps an already-set reason,
then tests rounds, tags, duration and a pending host stop request in that
order.  Returns the C function's `bool` and the updated reader. -/
def check_stop_conditions (r : Ex10ReaderPrivate) (timestamp_us : Nat) :
    Bool × Ex10ReaderPrivate :=
  let st := r.inventory_state
  let sc := r.inventory_params.stop_conditions
  if st.stop_reason ≠ .SRNone then
    (true, r)
  else if sc.max_number_of_rounds > 0 ∧ st.round_count ≥ sc.max_number_of_rounds then
    (true, set_stop_reason r .SRMaxNumberOfRounds)
  else if sc.max_number_of_tags > 0 ∧ st.tag_count ≥ sc.max_number_of_tags then
    (true, set_stop_reason r .SRMaxNumberOfTags)
  else if sc.max_duration_us > 0 ∧ elapsed_us r timestamp_us ≥ sc.max_duration_us then
    (true, set_stop_reason r .SRMaxDuration)
  else if st.state = .InvStopRequested then
    (true, set_stop_reason r .SRHost)
  else
    (false, r)

/-- `push_continuous_inventory_summary_packet` (`ex10_reader.c:228`): builds the
final summary from the session state (`duration_us` is the `uint32_t`
difference between the triggering packet's timestamp and the session start),
then patches reason / op detail from an error result exactly as the C switch
does.  The built packet is returned instead of being inserted in the queue. -/
def push_continuous_inventory_summary_packet (r : Ex10ReaderPrivate)
    (packet_us_counter : Nat) (ex10_result : Ex10Result) : EmittedPacket :=
  let duration_us := u32sub packet_us_counter r.inventory_params.start_time_us
  let base : ContinuousInventorySummary :=
    { duration_us := duration_us
      number_of_inventory_rounds := r.inventory_state.round_count
      number_of_tags := r.inventory_state.tag_count
      reason := r.inventory_state.stop_reason
      last_op_id := 0
      last_op_error := ErrorNone }
  let summary :=
    if ex10_result.error then
      if ex10_result.module = .Ex10ModuleDevice then
        match ex10_result.device_code with
        | .Ex10DeviceErrorCommandsNoResponse => { base with reason := .SRDeviceCommandError }
        | .Ex10DeviceErrorCommandsWithResponse => { base with reason := .SRDeviceCommandError }
        | .Ex10DeviceErrorOps =>
          { base with
            last_op_id := ex10_result.ops_status.op_id
            last_op_error := ex10_result.ops_status.error
            reason := .SROpError }
        | .Ex10DeviceErrorOpsTimeout =>
          { base with
            last_op_id := ex10_result.ops_status.op_id
            last_op_error := ex10_result.ops_status.error
            reason := .SRSdkTimeoutError }
        | .Ex10DeviceCodeOther _ => base
      else
        match ex10_result.sdk_code with
        | .Ex10SdkErrorAggBufferOverflow => { base with reason := .SRDeviceAggregateBufferOverflow }
        | .Ex10AboveThreshold => { base with reason := .SRDeviceRampCallbackError }
        | _ => base
    else
      base
  .summaryPacket summary packet_us_counter

/-- Modelled from the spec: `ex10_result_to_continuous_inventory_error` is
implemented in `ex10_inventory.c`, which is not part of this snapshot — only
its caller `handle_continuous_inventory_error` in `ex10_reader.c` is.  Spec
§4.5: `EventFifoFull` / `InvalidParam` / `LmacOverload` round-summary reasons
"map to a corresponding fatal-for-this-session error" and, on any error,
"set `stop_reason` from the error"; §7: the final summary's reason reflects
the error.  Each error code is therefore mapped to its own stop reason, and
device errors to the reasons `push_continuous_inventory_summary_packet`
uses for them. -/
def ex10_result_to_continuous_inventory_error (res : Ex10Result) : StopReason :=
  if res.error = false then
    .SRNone
  else if res.module = .Ex10ModuleDevice then
    match res.device_code with
    | .Ex10DeviceErrorCommandsNoResponse => .SRDeviceCommandError
    | .Ex10DeviceErrorCommandsWithResponse => .SRDeviceCommandError
    | .Ex10DeviceErrorOps => .SROpError
    | .Ex10DeviceErrorOpsTimeout => .SRSdkTimeoutError
    | .Ex10DeviceCodeOther _ => .SRDeviceCommandError
  else
    match res.sdk_code with
    | .Ex10SdkEventFifoFull => .SRDeviceEventFifoFull
    | .Ex10InventoryInvalidParam => .SRDeviceInventoryInvalidParam
    | .Ex10SdkLmacOverload => .SRDeviceLmacOverload
    | .Ex10InventorySummaryReasonInvalid => .SRDeviceInventorySummaryReasonInvalid
    | .Ex10SdkErrorAggBufferOverflow => .SRDeviceAggregateBufferOverflow
    | .Ex10AboveThreshold => .SRDeviceRampCallbackError
    | _ => .SRSdkTimeoutError

/-- Modelled from the spec: `make_ex10_result_fifo_packet` lives in
`ex10_helpers.c`, outside this snapshot.  Spec §7: a mid-session error "is
converted into a synthetic result packet" carrying the operation id and error
code, time-stamped with the triggering packet's microsecond counter; free
buffer-node allocation is modelled as always succeeding (queue capacity is a
resource concern outside the shallow embedding). -/
def make_ex10_result_fifo_packet (res : Ex10Result) (us_counter : Nat) : EmittedPacket :=
  .ex10ResultPacket res us_counter

/-- `handle_continuous_inventory_error` (`ex10_reader.c:457`): pushes the
synthetic result packet, idles the session, sets the stop reason from the
error and pushes the final summary. -/
def handle_continuous_inventory_error (r : Ex10ReaderPrivate)
    (ex10_result : Ex10Result) (packet_us_counter : Nat) :
    Ex10ReaderPrivate × List EmittedPacket :=
  let result_packet := make_ex10_result_fifo_packet ex10_result packet_us_counter
  let r1 :=
    { r with
      inventory_state :=
        { r.inventory_state with
          state := .InvIdle
          stop_reason := ex10_result_to_continuous_inventory_error ex10_result } }
  (r1, [result_packet,
        push_continuous_inventory_summary_packet r1 packet_us_counter ex10_result])

/-- The target-flip / Q-reset decision at the top of
`continue_continuous_inventory` (`ex10_reader.c:385`–`410`): `(reset_q, new
target)`.  Dual target: flip (and reset Q) on a `Done` round, then force
target A (and reset Q) when the carrier is off and the Gen2 session is 0;
single target: reset Q on `Done` without flipping. -/
def continue_reset_and_target (env : DeviceEnv) (r : Ex10ReaderPrivate) : Bool × Nat :=
  let st := r.inventory_state
  if r.inventory_params.dual_target then
    let flip :=
      if st.done_reason = InventorySummaryDone then
        (true, st.target ^^^ 1)
      else
        (false, st.target)
    if env.cw_is_on = false ∧ r.inventory_params.inventory_config.session = 0 then
      (true, target_A)
    else
      flip
  else
    (if st.done_reason = InventorySummaryDone then true else false, st.target)

/-- The round configuration `continue_continuous_inventory` builds for
`start_inventory` (`ex10_reader.c:412`–`437`): the session's stored configs
with the decided target, and the Q fields reset from `initial_inventory_config`
on `reset_q`, carried from the previous round after a `Regulatory` interrupt,
or left as stored otherwise. -/
def continue_configs (env : DeviceEnv) (r : Ex10ReaderPrivate) :
    InventoryRoundControlFields × InventoryRoundControl_2Fields :=
  let st := r.inventory_state
  let rt := continue_reset_and_target env r
  let inventory_config := { r.inventory_params.inventory_config with target := rt.2 }
  let inventory_config_2 := r.inventory_params.inventory_config_2
  if rt.1 then
    ({ inventory_config with initial_q := st.initial_inventory_config.initial_q },
     { inventory_config_2 with
       starting_min_q_count := 0
       starting_max_queries_since_valid_epc_count := 0 })
  else if st.done_reason = InventorySummaryRegulatory then
    ({ inventory_config with initial_q := st.previous_q },
     { inventory_config_2 with
       starting_min_q_count := st.min_q_count
       starting_max_queries_since_valid_epc_count := st.queries_since_valid_epc_count })
  else
    (inventory_config, inventory_config_2)

/-- `continue_continuous_inventory` (`ex10_reader.c:373`): decides target flip
and Q reset/carry from the recorded `done_reason` and re-issues the round with
the stored session parameters. -/
def continue_continuous_inventory (env : DeviceEnv) (r : Ex10ReaderPrivate) :
    Ex10Result × Ex10ReaderPrivate × List DeviceCommand :=
  let rt := continue_reset_and_target env r
  let r1 := { r with inventory_state := { r.inventory_state with target := rt.2 } }
  let cfgs := continue_configs env r
  start_inventory env r1 r1.inventory_params.antenna r1.inventory_params.rf_mode
    r1.inventory_params.tx_power_cdbm cfgs.1 cfgs.2
    r1.inventory_params.send_selects r1.inventory_params.remain_on

/-- The `InventoryRoundSummary` field updates and reason `switch` of
`fifo_data_handler` (`ex10_reader.c:515`–`562`): records the carried Q state,
counts completed rounds, and derives an `Ex10Result` for error reasons. -/
def round_summary_update (r : Ex10ReaderPrivate) (p : EventFifoPacket) :
    Ex10Result × Ex10ReaderPrivate :=
  let irs := p.inventory_round_summary
  let st0 := r.inventory_state
  let st :=
    { st0 with
      min_q_count := irs.min_q_count
      queries_since_valid_epc_count := irs.queries_since_valid_epc_count
      done_reason := irs.reason }
  if irs.reason = InventorySummaryDone ∨ irs.reason = InventorySummaryHost then
    (make_ex10_success,
     { r with inventory_state := { st with round_count := st.round_count + 1 } })
  else if irs.reason = InventorySummaryRegulatory then
    (make_ex10_success,
     { r with inventory_state := { st with previous_q := irs.final_q } })
  else if irs.reason = InventorySummaryUnsupported ∨
      irs.reason = InventorySummaryTxNotRampedUp then
    (make_ex10_success, { r with inventory_state := st })
  else if irs.reason = InventorySummaryEventFifoFull then
    (make_ex10_sdk_error .Ex10ModuleReader .Ex10SdkEventFifoFull,
     { r with inventory_state := st })
  else if irs.reason = InventorySummaryInvalidParam then
    (make_ex10_sdk_error .Ex10ModuleReader .Ex10InventoryInvalidParam,
     { r with inventory_state := st })
  else if irs.reason = InventorySummaryLmacOverload then
    (make_ex10_sdk_error .Ex10ModuleReader .Ex10SdkLmacOverload,
     { r with inventory_state := st })
  else
    (make_ex10_sdk_error .Ex10ModuleReader .Ex10InventorySummaryReasonInvalid,
     { r with inventory_state := st })

/-- One packet of the `fifo_data_handler` loop body (`ex10_reader.c:507`–`587`):
returns the updated reader, the synthetic packets pushed while handling this
packet (in enqueue order), and the device commands issued. -/
def fifo_step (env : DeviceEnv) (r : Ex10ReaderPrivate) (p : EventFifoPacket) :
    Ex10ReaderPrivate × List EmittedPacket × List DeviceCommand :=
  if r.inventory_state.state = .InvIdle then
    (r, [], [])
  else if p.packet_type = .TagRead then
    ({ r with
       inventory_state :=
         { r.inventory_state with tag_count := r.inventory_state.tag_count + 1 } },
     [], [])
  else if p.packet_type = .InventoryRoundSummary then
    let upd := round_summary_update r p
    if upd.1.error then
      let handled := handle_continuous_inventory_error upd.2 upd.1 p.us_counter
      (handled.1, handled.2, [])
    else
      let checked := check_stop_conditions upd.2 p.us_counter
      if checked.1 then
        let r3 :=
          { checked.2 with
            inventory_state := { checked.2.inventory_state with state := .InvIdle } }
        (r3, [push_continuous_inventory_summary_packet r3 p.us_counter upd.1], [])
      else
        let continued := continue_continuous_inventory env checked.2
        if continued.1.error then
          let handled := handle_continuous_inventory_error continued.2.1 continued.1
            p.us_counter
          (handled.1, handled.2, continued.2.2)
        else
          (continued.2.1, [], continued.2.2)
  else
    (r, [], [])

/-- `fifo_data_handler` over a decoded buffer: processes packets in order and
stops at the first invalid one (`get_packet_type_valid == false`). -/
def fifo_data_handler (env : DeviceEnv) :
    Ex10ReaderPrivate → List EventFifoPacket →
    Ex10ReaderPrivate × List EmittedPacket × List DeviceCommand
  | r, [] => (r, [], [])
  | r, p :: rest =>
    if p.is_valid = false then
      (r, [], [])
    else
      let stepped := fifo_step env r p
      let tailOut := fifo_data_handler env stepped.1 rest
      (tailOut.1, stepped.2.1 ++ tailOut.2.1, stepped.2.2 ++ tailOut.2.2)

/-! ## Basic facts about the embedded operations -/

theorem start_inventory_reader_eq (env : DeviceEnv) (r : Ex10ReaderPrivate)
    (antenna rf_mode : Nat) (tx_power_cdbm : Int)
    (cfg : InventoryRoundControlFields) (cfg2 : InventoryRoundControl_2Fields)
    (ss ron : Bool) :
    (start_inventory env r antenna rf_mode tx_power_cdbm cfg cfg2 ss ron).2.1 =
      if env.is_op_currently_running then r
      else
        { r with
          inventory_state := { r.inventory_state with target := cfg.target }
          inventory_params := { r.inventory_params with antenna := antenna, rf_mode := rf_mode } } := by
  unfold start_inventory
  dsimp only
  split_ifs <;> rfl

theorem start_inventory_run_mem (env : DeviceEnv) (r : Ex10ReaderPrivate)
    (antenna rf_mode : Nat) (tx_power_cdbm : Int)
    (cfg : InventoryRoundControlFields) (cfg2 : InventoryRoundControl_2Fields)
    (ss ron : Bool) (c1 : InventoryRoundControlFields)
    (c2 : InventoryRoundControl_2Fields) (s : Bool)
    (hmem : DeviceCommand.RunInventory c1 c2 s ∈
      (start_inventory env r antenna rf_mode tx_power_cdbm cfg cfg2 ss ron).2.2) :
    c1 = cfg ∧ c2 = cfg2 ∧ s = ss := by
  unfold start_inventory at hmem
  dsimp only at hmem
  split_ifs at hmem <;> simp_all

theorem continue_reader_eq (env : DeviceEnv) (r : Ex10ReaderPrivate) :
    (continue_continuous_inventory env r).2.1 =
      { r with
        inventory_state :=
          { r.inventory_state with target := (continue_reset_and_target env r).2 } } := by
  unfold continue_continuous_inventory
  rw [start_inventory_reader_eq]
  unfold continue_configs
  dsimp only
  split_ifs <;> rfl

theorem continue_run_mem (env : DeviceEnv) (r : Ex10ReaderPrivate)
    (c1 : InventoryRoundControlFields) (c2 : InventoryRoundControl_2Fields) (s : Bool)
    (hmem : DeviceCommand.RunInventory c1 c2 s ∈
      (continue_continuous_inventory env r).2.2) :
    c1 = (continue_configs env r).1 ∧ c2 = (continue_configs env r).2 ∧
      s = r.inventory_params.send_selects := by
  unfold continue_continuous_inventory at hmem
  exact start_inventory_run_mem _ _ _ _ _ _ _ _ _ _ _ _ hmem

theorem round_summary_update_fields (r : Ex10ReaderPrivate) (p : EventFifoPacket) :
    (round_summary_update r p).2.inventory_params = r.inventory_params ∧
    (round_summary_update r p).2.inventory_state.state = r.inventory_state.state ∧
    (round_summary_update r p).2.inventory_state.stop_reason = r.inventory_state.stop_reason ∧
    (round_summary_update r p).2.inventory_state.tag_count = r.inventory_state.tag_count ∧
    (round_summary_update r p).2.inventory_state.target = r.inventory_state.target ∧
    (round_summary_update r p).2.inventory_state.initial_inventory_config =
      r.inventory_state.initial_inventory_config ∧
    (round_summary_update r p).2.inventory_state.done_reason =
      p.inventory_round_summary.reason ∧
    (round_summary_update r p).2.inventory_state.min_q_count =
      p.inventory_round_summary.min_q_count ∧
    (round_summary_update r p).2.inventory_state.queries_since_valid_epc_count =
      p.inventory_round_summary.queries_since_valid_epc_count := by
  unfold round_summary_update
  dsimp only
  split_ifs <;> simp

theorem round_summary_update_round_count (r : Ex10ReaderPrivate) (p : EventFifoPacket) :
    (round_summary_update r p).2.inventory_state.round_count =
      r.inventory_state.round_count +
        (if p.inventory_round_summary.reason = InventorySummaryDone ∨
            p.inventory_round_summary.reason = InventorySummaryHost then 1 else 0) := by
  unfold round_summary_update
  dsimp only
  split_ifs with h <;> simp_all

theorem round_summary_update_regulatory (r : Ex10ReaderPrivate) (p : EventFifoPacket)
    (h : p.inventory_round_summary.reason = InventorySummaryRegulatory) :
    (round_summary_update r p).1 = make_ex10_success ∧
    (round_summary_update r p).2.inventory_state.previous_q =
      p.inventory_round_summary.final_q := by
  unfold round_summary_update
  dsimp only
  rw [h]
  norm_num [InventorySummaryRegulatory, InventorySummaryDone, InventorySummaryHost]

theorem round_summary_update_success_iff (r : Ex10ReaderPrivate) (p : EventFifoPacket) :
    (round_summary_update r p).1.error = false ↔
      (p.inventory_round_summary.reason = InventorySummaryDone ∨
       p.inventory_round_summary.reason = InventorySummaryHost ∨
       p.inventory_round_summary.reason = InventorySummaryRegulatory ∨
       p.inventory_round_summary.reason = InventorySummaryUnsupported ∨
       p.inventory_round_summary.reason = InventorySummaryTxNotRampedUp) := by
  unfold round_summary_update
  dsimp only
  split_ifs <;> simp_all [make_ex10_success, make_ex10_sdk_error] <;> tauto

theorem check_stop_conditions_false_id (r : Ex10ReaderPrivate) (ts : Nat)
    (h : (check_stop_conditions r ts).1 = false) :
    (check_stop_conditions r ts).2 = r ∧ r.inventory_state.stop_reason = .SRNone := by
  unfold check_stop_conditions at h ⊢
  dsimp only at h ⊢
  split_ifs at h ⊢ <;> simp_all

theorem check_stop_conditions_fields (r : Ex10ReaderPrivate) (ts : Nat) :
    (check_stop_conditions r ts).2.inventory_params = r.inventory_params ∧
    (check_stop_conditions r ts).2.inventory_state.state = r.inventory_state.state ∧
    (check_stop_conditions r ts).2.inventory_state.round_count =
      r.inventory_state.round_count ∧
    (check_stop_conditions r ts).2.inventory_state.tag_count =
      r.inventory_state.tag_count := by
  unfold check_stop_conditions
  dsimp only
  split_ifs <;> simp [set_stop_reason]

/-! ## Shared concrete fixtures -/

def env_op_running : DeviceEnv :=
  { is_op_currently_running := true
    cw_is_on := false
    set_rf_mode_result := make_ex10_success
    ramp_results := []
    run_inventory_results := [] }

def env_cw_on_ok : DeviceEnv :=
  { is_op_currently_running := false
    cw_is_on := true
    set_rf_mode_result := make_ex10_success
    ramp_results := []
    run_inventory_results := [] }

def stop_conditions_zero : StopConditions :=
  { max_number_of_rounds := 0, max_number_of_tags := 0, max_duration_us := 0 }

def sample_config : InventoryRoundControlFields :=
  { initial_q := 4, session := 1, target := 0, other_fields := 7 }

def sample_config_2 : InventoryRoundControl_2Fields :=
  { starting_min_q_count := 0
    starting_max_queries_since_valid_epc_count := 0
    other_fields := 3 }

/-! ## C9: bounds-checked copy helper -/

/-- **C9**: `ex10_memcpy(dst, dst_size, src, src_size)` copies exactly
`src_size` bytes and returns 0 when `src_size <= dst_size`, leaving the rest of
`dst` unchanged; otherwise it zero-fills all `dst_size` destination bytes and
returns `EINVAL` (zero-then-fail). -/
theorem C9_ex10_memcpy_zero_then_fail (dst src : List Nat) :
    (src.length ≤ dst.length →
      ex10_memcpy dst src = (0, src ++ dst.drop src.length)) ∧
    (dst.length < src.length →
      ex10_memcpy dst src = (EINVAL, List.replicate dst.length 0)) := by
  constructor
  · intro h
    unfold ex10_memcpy
    rw [if_pos h, copy_bytes_eq_append dst src h]
  · intro h
    unfold ex10_memcpy
    rw [if_neg (by omega)]
    rfl

/-- Witness for C9 at concrete buffers: a fitting copy and an overflowing one. -/
theorem C9_ex10_memcpy_zero_then_fail_witness :
    ex10_memcpy [1, 2, 3, 4] [9, 8] = (0, [9, 8, 3, 4]) ∧
    ex10_memcpy [1, 2] [9, 8, 7] = (EINVAL, [0, 0]) := by
  constructor
  · have h := (C9_ex10_memcpy_zero_then_fail [1, 2, 3, 4] [9, 8]).1 (by decide)
    simpa using h
  · have h := (C9_ex10_memcpy_zero_then_fail [1, 2] [9, 8, 7]).2 (by decide)
    simpa using h

/-! ## C8: regulatory channel timer -/

/-- **C8**: `timer_set_start(ch, now)` records the start time and folds the
idle gap `now - last_end` into the accumulated on-time when it is strictly
shorter than the region's required same-channel off time, resetting on-time to
zero otherwise; `timer_set_end(ch, now)` records the end time and adds
`now - last_start`.  In particular, from a cleared timer, start at 1000, end at
1040 and restart at `1040 + off_time_required - 1` accumulate `40 + 99 = 139`. -/
theorem C8_regulatory_timer_fold_and_reset :
    (∀ (s : RegulatoryTimerState) (ch now : Nat),
      s.channel_last_end ch ≤ now → now < U32_MOD →
      s.channel_total_time ch + (now - s.channel_last_end ch) < U32_MOD →
      ((now - s.channel_last_end ch <
          etsi_lower_regulatory_timers.off_same_channel_ms →
        (regulatory_timer_set_start s ch now).channel_total_time ch =
          s.channel_total_time ch + (now - s.channel_last_end ch)) ∧
       (etsi_lower_regulatory_timers.off_same_channel_ms ≤
          now - s.channel_last_end ch →
        (regulatory_timer_set_start s ch now).channel_total_time ch = 0) ∧
       (regulatory_timer_set_start s ch now).channel_last_start ch = now)) ∧
    (∀ (s : RegulatoryTimerState) (ch now : Nat),
      s.channel_last_start ch ≤ now → now < U32_MOD →
      s.channel_total_time ch + (now - s.channel_last_start ch) < U32_MOD →
      (regulatory_timer_set_end s ch now).channel_total_time ch =
        s.channel_total_time ch + (now - s.channel_last_start ch) ∧
      (regulatory_timer_set_end s ch now).channel_last_end ch = now) ∧
    (∀ ch : Nat,
      (regulatory_timer_set_start
        (regulatory_timer_set_end
          (regulatory_timer_set_start regulatory_timer_clear ch 1000) ch 1040)
        ch (1040 + etsi_lower_regulatory_timers.off_same_channel_ms - 1)).channel_total_time ch
        = 139) := by
  refine ⟨?_, ?_, ?_⟩
  · intro s ch now hle hlt hsum
    have hgap : u32sub now (s.channel_last_end ch) = now - s.channel_last_end ch :=
      u32sub_of_le _ _ hle hlt
    unfold regulatory_timer_set_start
    dsimp only
    rw [hgap]
    refine ⟨?_, ?_, ?_⟩
    · intro hfold
      rw [if_pos hfold]
      simp [Function.update_same, u32add_of_lt _ _ hsum]
    · intro hrest
      rw [if_neg (by omega)]
      simp [Function.update_same]
    · simp [Function.update_same, Nat.mod_eq_of_lt hlt]
  · intro s ch now hle hlt hsum
    have hgap : u32sub now (s.channel_last_start ch) = now - s.channel_last_start ch :=
      u32sub_of_le _ _ hle hlt
    unfold regulatory_timer_set_end
    dsimp only
    rw [hgap]
    simp [Function.update_same, u32add_of_lt _ _ hsum, Nat.mod_eq_of_lt hlt]
  · intro ch
    unfold regulatory_timer_clear regulatory_timer_set_start regulatory_timer_set_end
    norm_num [Function.update_same, u32sub, u32add, U32_MOD,
      etsi_lower_regulatory_timers]

/-- Witness for C8: the fold case and the reset case evaluated at channel 4 of
a cleared timer, plus the Scenario E accumulation. -/
theorem C8_regulatory_timer_fold_and_reset_witness :
    (regulatory_timer_set_start
      (regulatory_timer_set_end
        (regulatory_timer_set_start regulatory_timer_clear 4 1000) 4 1040)
      4 (1040 + etsi_lower_regulatory_timers.off_same_channel_ms - 1)).channel_total_time 4
      = 139 ∧
    (regulatory_timer_set_start regulatory_timer_clear 4 1000).channel_total_time 4 = 0 := by
  constructor
  · exact C8_regulatory_timer_fold_and_reset.2.2 4
  · exact ((C8_regulatory_timer_fold_and_reset.1 regulatory_timer_clear 4 1000
      (by norm_num [regulatory_timer_clear]) (by norm_num [U32_MOD])
      (by norm_num [regulatory_timer_clear, U32_MOD])).2.1
      (by norm_num [regulatory_timer_clear, etsi_lower_regulatory_timers]))

/-! ## C10: op-already-running short circuit -/

/-- **C10**: when the device protocol reports an op already running,
`start_inventory` returns success without touching the reader or issuing any
device command, so `continuous_inventory` returns success with the session
phase left `Ongoing` even though no inventory round was started. -/
theorem C10_op_running_short_circuit (env : DeviceEnv) (now_us : Nat)
    (r : Ex10ReaderPrivate) (antenna rf_mode : Nat) (tx_power_cdbm : Int)
    (cfg : InventoryRoundControlFields) (cfg2 : InventoryRoundControl_2Fields)
    (ss : Bool) (sc : StopConditions) (dual ron : Bool)
    (hop : env.is_op_currently_running = true) :
    start_inventory env r antenna rf_mode tx_power_cdbm cfg cfg2 ss ron =
      (make_ex10_success, r, []) ∧
    (continuous_inventory env now_us r antenna rf_mode tx_power_cdbm (some cfg)
        (some cfg2) ss (some sc) dual ron).1 = make_ex10_success ∧
    (continuous_inventory env now_us r antenna rf_mode tx_power_cdbm (some cfg)
        (some cfg2) ss (some sc) dual ron).2.1.inventory_state.state = .InvOngoing ∧
    (continuous_inventory env now_us r antenna rf_mode tx_power_cdbm (some cfg)
        (some cfg2) ss (some sc) dual ron).2.2 = [] := by
  have hstart : ∀ rr : Ex10ReaderPrivate,
      start_inventory env rr antenna rf_mode tx_power_cdbm cfg cfg2 ss ron =
        (make_ex10_success, rr, []) := by
    intro rr
    unfold start_inventory
    dsimp only
    rw [if_pos hop]
  refine ⟨hstart r, ?_, ?_, ?_⟩ <;>
    · unfold continuous_inventory
      dsimp only
      rw [hstart]
      simp [make_ex10_success]

/-- Witness for C10 with the op-running device oracle. -/
theorem C10_op_running_short_circuit_witness :
    start_inventory env_op_running reader_init 1 5 3000 sample_config
        sample_config_2 true false = (make_ex10_success, reader_init, []) ∧
    (continuous_inventory env_op_running 0 reader_init 1 5 3000
        (some sample_config) (some sample_config_2) true
        (some stop_conditions_zero) false false).1 = make_ex10_success ∧
    (continuous_inventory env_op_running 0 reader_init 1 5 3000
        (some sample_config) (some sample_config_2) true
        (some stop_conditions_zero) false false).2.1.inventory_state.state = .InvOngoing ∧
    (continuous_inventory env_op_running 0 reader_init 1 5 3000
        (some sample_config) (some sample_config_2) true
        (some stop_conditions_zero) false false).2.2 = [] :=
  C10_op_running_short_circuit env_op_running 0 reader_init 1 5 3000
    sample_config sample_config_2 true stop_conditions_zero false false (by decide)

/-! ## C7: select-send invalid-tx-state race, retried exactly once -/

/-- **C7**: when the first `run_inventory` attempt fails with the
invalid-tx-state op error on the select-send op, `start_inventory` re-ramps the
carrier and retries the round exactly once: a failing re-ramp is surfaced with
only one round attempt made, otherwise the retry's result (whatever it is) is
surfaced with exactly two round attempts and no further retry; in either case
the re-ramp command is issued. -/
theorem C7_select_race_retry_once (env : DeviceEnv) (r : Ex10ReaderPrivate)
    (antenna rf_mode : Nat) (tx_power_cdbm : Int)
    (cfg : InventoryRoundControlFields) (cfg2 : InventoryRoundControl_2Fields)
    (ss ron : Bool)
    (hop : env.is_op_currently_running = false)
    (hrf : env.set_rf_mode_result.error = false)
    (hramp : env.cw_is_on = true ∨ (headResult env.ramp_results).error = false)
    (herr : (headResult env.run_inventory_results).error = true)
    (hid : (headResult env.run_inventory_results).ops_status.op_id = SendSelectOp)
    (htx : (headResult env.run_inventory_results).ops_status.error = ErrorInvalidTxState) :
    ((headResult (if env.cw_is_on then env.ramp_results
        else env.ramp_results.tail)).error = true →
      (start_inventory env r antenna rf_mode tx_power_cdbm cfg cfg2 ss ron).1 =
        headResult (if env.cw_is_on then env.ramp_results else env.ramp_results.tail) ∧
      ((start_inventory env r antenna rf_mode tx_power_cdbm cfg cfg2 ss ron).2.2.count
        (DeviceCommand.RunInventory cfg cfg2 ss)) = 1) ∧
    ((headResult (if env.cw_is_on then env.ramp_results
        else env.ramp_results.tail)).error = false →
      (start_inventory env r antenna rf_mode tx_power_cdbm cfg cfg2 ss ron).1 =
        headResult env.run_inventory_results.tail ∧
      ((start_inventory env r antenna rf_mode tx_power_cdbm cfg cfg2 ss ron).2.2.count
        (DeviceCommand.RunInventory cfg cfg2 ss)) = 2) ∧
    DeviceCommand.RampForInventory ∈
      (start_inventory env r antenna rf_mode tx_power_cdbm cfg cfg2 ss ron).2.2 := by
  cases hcw : env.cw_is_on with
  | false =>
    have hramp1 : (headResult env.ramp_results).error = false := by
      rcases hramp with h | h
      · rw [hcw] at h
        exact absurd h (by decide)
      · exact h
    by_cases h2 : (headResult env.ramp_results.tail).error = true
    · refine ⟨fun _ => ⟨?_, ?_⟩, fun hcontra => absurd
        (show (headResult env.ramp_results.tail).error = false by simpa using hcontra)
        (by simp [h2]), ?_⟩ <;>
        · unfold start_inventory
          simp [hcw, hop, hrf, hramp1, h2, herr, hid, htx, List.count_cons]
    · refine ⟨fun hcontra => absurd hcontra h2, fun _ => ⟨?_, ?_⟩, ?_⟩ <;>
        · unfold start_inventory
          simp [hcw, hop, hrf, hramp1, h2, herr, hid, htx, List.count_cons]
  | true =>
    by_cases h2 : (headResult env.ramp_results).error = true
    · refine ⟨fun _ => ⟨?_, ?_⟩, fun hcontra => absurd
        (show (headResult env.ramp_results).error = false by simpa using hcontra)
        (by simp [h2]), ?_⟩ <;>
        · unfold start_inventory
          simp [hcw, hop, hrf, h2, herr, hid, htx, List.count_cons, make_ex10_success]
    · refine ⟨fun hcontra => absurd hcontra h2, fun _ => ⟨?_, ?_⟩, ?_⟩ <;>
        · unfold start_inventory
          simp [hcw, hop, hrf, h2, herr, hid, htx, List.count_cons, make_ex10_success]

/-- An op-level device error matching the select-send invalid-tx-state race. -/
def race_result : Ex10Result :=
  { error := true
    module := .Ex10ModuleDevice
    device_code := .Ex10DeviceErrorOps
    sdk_code := .Ex10SdkCodeOther 0
    ops_status := { op_id := SendSelectOp, error := ErrorInvalidTxState } }

/-- An unrelated op-level device error. -/
def other_op_error : Ex10Result :=
  { error := true
    module := .Ex10ModuleDevice
    device_code := .Ex10DeviceErrorOps
    sdk_code := .Ex10SdkCodeOther 0
    ops_status := { op_id := 3, error := 4 } }

/-- Device oracle hitting the race on the first round attempt and another
error on the retry. -/
def env_race : DeviceEnv :=
  { is_op_currently_running := false
    cw_is_on := true
    set_rf_mode_result := make_ex10_success
    ramp_results := [make_ex10_success]
    run_inventory_results := [race_result, other_op_error] }

/-- Witness for C7: under `env_race` the retry's error is surfaced and exactly
two round attempts are made. -/
theorem C7_select_race_retry_once_witness :
    (start_inventory env_race reader_init 1 5 3000 sample_config sample_config_2
        true false).1 = headResult env_race.run_inventory_results.tail ∧
    ((start_inventory env_race reader_init 1 5 3000 sample_config sample_config_2
        true false).2.2.count
      (DeviceCommand.RunInventory sample_config sample_config_2 true)) = 2 :=
  (C7_select_race_retry_once env_race reader_init 1 5 3000 sample_config
    sample_config_2 true false (by decide) (by decide) (Or.inl (by decide))
    (by decide) (by decide) (by decide)).2.1 (by decide)

/-! ## C1: all-zero stop conditions are not rejected -/

/-- **C1** counterexample: `continuous_inventory` performs no all-zero
stop-conditions validation.  With all three bounds zero (and non-null configs)
the call returns success and the session state is mutated: the phase becomes
`Ongoing` and the zero stop conditions are stored. -/
theorem C1_counterexample_all_zero_accepted :
    stop_conditions_zero.max_number_of_rounds = 0 ∧
    stop_conditions_zero.max_number_of_tags = 0 ∧
    stop_conditions_zero.max_duration_us = 0 ∧
    (continuous_inventory env_op_running 0 reader_init 1 5 3000
        (some sample_config) (some sample_config_2) false
        (some stop_conditions_zero) false false).1.error = false ∧
    (continuous_inventory env_op_running 0 reader_init 1 5 3000
        (some sample_config) (some sample_config_2) false
        (some stop_conditions_zero) false false).2.1.inventory_state.state
      = .InvOngoing ∧
    (continuous_inventory env_op_running 0 reader_init 1 5 3000
        (some sample_config) (some sample_config_2) false
        (some stop_conditions_zero) false false).2.1 ≠ reader_init := by
  decide

/-- **C1** amended: `continuous_inventory` rejects only null config pointers,
synchronously and without state mutation or device commands; a
`stop_conditions` with all three bounds zero is accepted — the configuration is
snapshotted (so state is mutated), the phase is set to `Ongoing`, and it
reverts to `Idle` only when the first round start fails. -/
theorem C1_only_null_params_rejected (env : DeviceEnv) (now_us : Nat)
    (r : Ex10ReaderPrivate) (antenna rf_mode : Nat) (tx_power_cdbm : Int)
    (cfg : InventoryRoundControlFields) (cfg2 : InventoryRoundControl_2Fields)
    (ss : Bool) (sc : StopConditions) (dual ron : Bool)
    (hz : sc.max_number_of_rounds = 0 ∧ sc.max_number_of_tags = 0 ∧
      sc.max_duration_us = 0) :
    continuous_inventory env now_us r antenna rf_mode tx_power_cdbm none
        (some cfg2) ss (some sc) dual ron =
      (make_ex10_sdk_error .Ex10ModuleReader .Ex10SdkErrorNullPointer, r, []) ∧
    continuous_inventory env now_us r antenna rf_mode tx_power_cdbm (some cfg)
        none ss (some sc) dual ron =
      (make_ex10_sdk_error .Ex10ModuleReader .Ex10SdkErrorNullPointer, r, []) ∧
    continuous_inventory env now_us r antenna rf_mode tx_power_cdbm (some cfg)
        (some cfg2) ss none dual ron =
      (make_ex10_sdk_error .Ex10ModuleReader .Ex10SdkErrorNullPointer, r, []) ∧
    (continuous_inventory env now_us r antenna rf_mode tx_power_cdbm (some cfg)
        (some cfg2) ss (some sc) dual ron).2.1.inventory_params.stop_conditions
      = sc ∧
    ((continuous_inventory env now_us r antenna rf_mode tx_power_cdbm (some cfg)
        (some cfg2) ss (some sc) dual ron).1.error = false →
      (continuous_inventory env now_us r antenna rf_mode tx_power_cdbm (some cfg)
        (some cfg2) ss (some sc) dual ron).2.1.inventory_state.state = .InvOngoing) ∧
    ((continuous_inventory env now_us r antenna rf_mode tx_power_cdbm (some cfg)
        (some cfg2) ss (some sc) dual ron).1.error = true →
      (continuous_inventory env now_us r antenna rf_mode tx_power_cdbm (some cfg)
        (some cfg2) ss (some sc) dual ron).2.1.inventory_state.state = .InvIdle) := by
  refine ⟨rfl, rfl, rfl, ?_, ?_, ?_⟩
  · unfold continuous_inventory
    dsimp only
    split_ifs with hc <;>
      · rw [start_inventory_reader_eq]
        split_ifs <;> rfl
  · intro h
    unfold continuous_inventory at h ⊢
    dsimp only at h ⊢
    split_ifs at h ⊢ with hc
    · exact absurd h (by simp [hc])
    · rw [start_inventory_reader_eq]
      split_ifs <;> rfl
  · intro h
    unfold continuous_inventory at h ⊢
    dsimp only at h ⊢
    split_ifs at h ⊢ with hc
    · rfl
    · exact absurd h hc

/-- Witness for C1: the null-pointer rejection and the all-zero acceptance at
concrete inputs. -/
theorem C1_only_null_params_rejected_witness :
    continuous_inventory env_op_running 0 reader_init 1 5 3000 none
        (some sample_config_2) false (some stop_conditions_zero) false false =
      (make_ex10_sdk_error .Ex10ModuleReader .Ex10SdkErrorNullPointer, reader_init, []) ∧
    (continuous_inventory env_op_running 0 reader_init 1 5 3000
        (some sample_config) (some sample_config_2) false
        (some stop_conditions_zero) false false).2.1.inventory_params.stop_conditions
      = stop_conditions_zero :=
  ⟨(C1_only_null_params_rejected env_op_running 0 reader_init 1 5 3000
      sample_config sample_config_2 false stop_conditions_zero false false
      (by decide)).1,
   (C1_only_null_params_rejected env_op_running 0 reader_init 1 5 3000
      sample_config sample_config_2 false stop_conditions_zero false false
      (by decide)).2.2.2.1⟩

/-! ## C2: MaxDuration summary reports elapsed time, not the threshold -/

/-- Session fixture for C2: ongoing, `max_duration_us = 2_000_000`, started at
time 0. -/
def c2_reader : Ex10ReaderPrivate :=
  { inventory_params :=
      { reader_init.inventory_params with
        stop_conditions :=
          { max_number_of_rounds := 0, max_number_of_tags := 0, max_duration_us := 2000000 }
        start_time_us := 0 }
    inventory_state := { reader_init.inventory_state with state := .InvOngoing } }

/-- A `Done` round summary time-stamped at 2.5 s. -/
def c2_packet : EventFifoPacket :=
  { packet_type := .InventoryRoundSummary
    us_counter := 2500000
    inventory_round_summary :=
      { duration_us := 0
        final_q := 0
        min_q_count := 0
        queries_since_valid_epc_count := 0
        reason := InventorySummaryDone }
    is_valid := true }

/-- **C2** counterexample: with `max_duration_us = 2_000_000` and the stop
triggered by a packet time-stamped 2_500_000, the published summary carries
`duration_us = 2_500_000` — the packet timestamp minus the start time, not a
value bounded by (approximately equal to) the 2_000_000 threshold. -/
theorem C2_counterexample_duration_not_clamped :
    c2_reader.inventory_params.stop_conditions.max_duration_us = 2000000 ∧
    c2_packet.us_counter = 2500000 ∧
    (fifo_step env_op_running c2_reader c2_packet).2.1 =
      [EmittedPacket.summaryPacket
        { duration_us := 2500000
          number_of_inventory_rounds := 1
          number_of_tags := 0
          reason := .SRMaxDuration
          last_op_id := 0
          last_op_error := 0 } 2500000] := by
  decide

/-- **C2** amended: when the `max_duration_us` condition stops the session, the
summary's reason is `MaxDuration` and its `duration_us` is the triggering
packet's timestamp minus the session start time — at least the threshold, and
bounded by when the check happened to run, not by the threshold. -/
theorem C2_max_duration_reports_elapsed (env : DeviceEnv) (r : Ex10ReaderPrivate)
    (p : EventFifoPacket)
    (hstate : ¬(r.inventory_state.state = .InvIdle))
    (htype : p.packet_type = .InventoryRoundSummary)
    (hok : (round_summary_update r p).1.error = false)
    (hsr : r.inventory_state.stop_reason = .SRNone)
    (hrounds : r.inventory_params.stop_conditions.max_number_of_rounds = 0 ∨
      (round_summary_update r p).2.inventory_state.round_count <
        r.inventory_params.stop_conditions.max_number_of_rounds)
    (htags : r.inventory_params.stop_conditions.max_number_of_tags = 0 ∨
      r.inventory_state.tag_count < r.inventory_params.stop_conditions.max_number_of_tags)
    (hdur : 0 < r.inventory_params.stop_conditions.max_duration_us)
    (hstart : r.inventory_params.start_time_us ≤ p.us_counter)
    (hts : p.us_counter < U32_MOD)
    (hmet : r.inventory_params.stop_conditions.max_duration_us ≤
      p.us_counter - r.inventory_params.start_time_us) :
    (fifo_step env r p).2.1 =
      [EmittedPacket.summaryPacket
        { duration_us := p.us_counter - r.inventory_params.start_time_us
          number_of_inventory_rounds :=
            (round_summary_update r p).2.inventory_state.round_count
          number_of_tags := r.inventory_state.tag_count
          reason := .SRMaxDuration
          last_op_id := 0
          last_op_error := ErrorNone } p.us_counter] ∧
    (fifo_step env r p).1.inventory_state.state = .InvIdle := by
  obtain ⟨hparams, hst, hsr2, htag2, _⟩ := round_summary_update_fields r p
  have hc1 : ¬((round_summary_update r p).2.inventory_state.stop_reason ≠ StopReason.SRNone) := by
    rw [hsr2, hsr]
    simp
  have hc2 : ¬((round_summary_update r p).2.inventory_params.stop_conditions.max_number_of_rounds > 0 ∧
      (round_summary_update r p).2.inventory_state.round_count ≥
        (round_summary_update r p).2.inventory_params.stop_conditions.max_number_of_rounds) := by
    rw [hparams]
    rcases hrounds with h | h <;> omega
  have hc3 : ¬((round_summary_update r p).2.inventory_params.stop_conditions.max_number_of_tags > 0 ∧
      (round_summary_update r p).2.inventory_state.tag_count ≥
        (round_summary_update r p).2.inventory_params.stop_conditions.max_number_of_tags) := by
    rw [hparams, htag2]
    rcases htags with h | h <;> omega
  have helap : elapsed_us (round_summary_update r p).2 p.us_counter =
      p.us_counter - r.inventory_params.start_time_us := by
    unfold elapsed_us
    rw [hparams, if_neg (by omega)]
  have hc4 : (round_summary_update r p).2.inventory_params.stop_conditions.max_duration_us > 0 ∧
      elapsed_us (round_summary_update r p).2 p.us_counter ≥
        (round_summary_update r p).2.inventory_params.stop_conditions.max_duration_us := by
    rw [hparams, helap]
    exact ⟨hdur, hmet⟩
  have hcheck : check_stop_conditions (round_summary_update r p).2 p.us_counter =
      (true, set_stop_reason (round_summary_update r p).2 .SRMaxDuration) := by
    unfold check_stop_conditions
    dsimp only
    rw [if_neg hc1, if_neg hc2, if_neg hc3, if_pos hc4]
  unfold fifo_step
  dsimp only
  rw [if_neg hstate, if_neg (show ¬(p.packet_type = .TagRead) by rw [htype]; decide),
    if_pos htype, if_neg (show ¬((round_summary_update r p).1.error = true) by simp [hok]),
    hcheck]
  dsimp only
  rw [if_pos rfl]
  constructor
  · unfold push_continuous_inventory_summary_packet
    dsimp only [set_stop_reason]
    rw [if_neg (show ¬((round_summary_update r p).1.error = true) by simp [hok])]
    rw [hparams, htag2, u32sub_of_le _ _ hstart hts]
  · rfl

/-- Witness for C2 amended at the concrete 2.5 s scenario. -/
theorem C2_max_duration_reports_elapsed_witness :
    (fifo_step env_op_running c2_reader c2_packet).2.1 =
      [EmittedPacket.summaryPacket
        { duration_us := c2_packet.us_counter - c2_reader.inventory_params.start_time_us
          number_of_inventory_rounds :=
            (round_summary_update c2_reader c2_packet).2.inventory_state.round_count
          number_of_tags := c2_reader.inventory_state.tag_count
          reason := .SRMaxDuration
          last_op_id := 0
          last_op_error := ErrorNone } c2_packet.us_counter] ∧
    (fifo_step env_op_running c2_reader c2_packet).1.inventory_state.state = .InvIdle :=
  C2_max_duration_reports_elapsed env_op_running c2_reader c2_packet (by decide)
    (by decide) (by decide) (by decide) (Or.inl (by decide)) (Or.inl (by decide))
    (by decide) (by decide) (by decide) (by decide)

/-! ## Facts about round continuation and error handling -/

theorem crt_override (env : DeviceEnv) (r : Ex10ReaderPrivate)
    (hdual : r.inventory_params.dual_target = true)
    (hcw : env.cw_is_on = false)
    (hsess : r.inventory_params.inventory_config.session = 0) :
    continue_reset_and_target env r = (true, target_A) := by
  unfold continue_reset_and_target
  dsimp only
  rw [if_pos hdual, if_pos ⟨hcw, hsess⟩]

theorem crt_not_done_no_override (env : DeviceEnv) (r : Ex10ReaderPrivate)
    (hnd : ¬(r.inventory_state.done_reason = InventorySummaryDone))
    (hnof : ¬(r.inventory_params.dual_target = true ∧ env.cw_is_on = false ∧
      r.inventory_params.inventory_config.session = 0)) :
    continue_reset_and_target env r = (false, r.inventory_state.target) := by
  unfold continue_reset_and_target
  dsimp only
  by_cases hdual : r.inventory_params.dual_target = true
  · rw [if_pos hdual, if_neg (fun hc => hnof ⟨hdual, hc.1, hc.2⟩), if_neg hnd]
  · rw [if_neg hdual, if_neg hnd]

theorem crt_done_dual_no_override (env : DeviceEnv) (r : Ex10ReaderPrivate)
    (hd : r.inventory_state.done_reason = InventorySummaryDone)
    (hdual : r.inventory_params.dual_target = true)
    (hno : ¬(env.cw_is_on = false ∧ r.inventory_params.inventory_config.session = 0)) :
    continue_reset_and_target env r = (true, r.inventory_state.target ^^^ 1) := by
  unfold continue_reset_and_target
  dsimp only
  rw [if_pos hdual, if_neg hno, if_pos hd]

theorem continue_configs_of_reset (env : DeviceEnv) (r : Ex10ReaderPrivate)
    (h : (continue_reset_and_target env r).1 = true) :
    (continue_configs env r).1.initial_q =
      r.inventory_state.initial_inventory_config.initial_q ∧
    (continue_configs env r).2.starting_min_q_count = 0 ∧
    (continue_configs env r).2.starting_max_queries_since_valid_epc_count = 0 ∧
    (continue_configs env r).1.target = (continue_reset_and_target env r).2 := by
  unfold continue_configs
  dsimp only
  rw [if_pos h]
  exact ⟨rfl, rfl, rfl, rfl⟩

theorem continue_configs_of_carry (env : DeviceEnv) (r : Ex10ReaderPrivate)
    (h : ¬((continue_reset_and_target env r).1 = true))
    (hreg : r.inventory_state.done_reason = InventorySummaryRegulatory) :
    (continue_configs env r).1.initial_q = r.inventory_state.previous_q ∧
    (continue_configs env r).2.starting_min_q_count = r.inventory_state.min_q_count ∧
    (continue_configs env r).2.starting_max_queries_since_valid_epc_count =
      r.inventory_state.queries_since_valid_epc_count ∧
    (continue_configs env r).1.target = (continue_reset_and_target env r).2 := by
  unfold continue_configs
  dsimp only
  rw [if_neg h, if_pos hreg]
  exact ⟨rfl, rfl, rfl, rfl⟩

/-- Every inventory round issued while handling one packet uses exactly the
configuration computed by `continue_configs` on the updated session state. -/
theorem fifo_step_run_mem (env : DeviceEnv) (r : Ex10ReaderPrivate) (p : EventFifoPacket)
    (c1 : InventoryRoundControlFields) (c2 : InventoryRoundControl_2Fields) (s : Bool)
    (hmem : DeviceCommand.RunInventory c1 c2 s ∈ (fifo_step env r p).2.2) :
    c1 = (continue_configs env (round_summary_update r p).2).1 ∧
    c2 = (continue_configs env (round_summary_update r p).2).2 := by
  unfold fifo_step at hmem
  dsimp only at hmem
  by_cases h1 : r.inventory_state.state = .InvIdle
  · rw [if_pos h1] at hmem
    simp at hmem
  rw [if_neg h1] at hmem
  by_cases h2 : p.packet_type = .TagRead
  · rw [if_pos h2] at hmem
    simp at hmem
  rw [if_neg h2] at hmem
  by_cases h3 : p.packet_type = .InventoryRoundSummary
  case neg =>
    rw [if_neg h3] at hmem
    simp at hmem
  rw [if_pos h3] at hmem
  by_cases h4 : (round_summary_update r p).1.error = true
  · rw [if_pos h4] at hmem
    simp at hmem
  rw [if_neg h4] at hmem
  by_cases h5 : (check_stop_conditions (round_summary_update r p).2 p.us_counter).1 = true
  · rw [if_pos h5] at hmem
    simp at hmem
  rw [if_neg h5] at hmem
  have hid := (check_stop_conditions_false_id (round_summary_update r p).2 p.us_counter
    (by simpa using h5)).1
  rw [hid] at hmem
  by_cases h6 : (continue_continuous_inventory env (round_summary_update r p).2).1.error = true
  · rw [if_pos h6] at hmem
    have h := continue_run_mem env (round_summary_update r p).2 c1 c2 s hmem
    exact ⟨h.1, h.2.1⟩
  · rw [if_neg h6] at hmem
    have h := continue_run_mem env (round_summary_update r p).2 c1 c2 s hmem
    exact ⟨h.1, h.2.1⟩

/-- When the device cooperates, `start_inventory` does issue the round. -/
theorem start_inventory_run_exists (env : DeviceEnv) (r : Ex10ReaderPrivate)
    (antenna rf_mode : Nat) (tx_power_cdbm : Int)
    (cfg : InventoryRoundControlFields) (cfg2 : InventoryRoundControl_2Fields)
    (ss ron : Bool)
    (hop : env.is_op_currently_running = false)
    (hrf : env.set_rf_mode_result.error = false)
    (hramp : env.cw_is_on = true ∨ (headResult env.ramp_results).error = false) :
    DeviceCommand.RunInventory cfg cfg2 ss ∈
      (start_inventory env r antenna rf_mode tx_power_cdbm cfg cfg2 ss ron).2.2 := by
  unfold start_inventory
  dsimp only
  rw [if_neg (by simp [hop]), if_neg (by simp [hrf])]
  have hramp2 : (if env.cw_is_on = true then make_ex10_success
      else headResult env.ramp_results).error = false := by
    cases hcw : env.cw_is_on with
    | true => simp [make_ex10_success]
    | false =>
      rcases hramp with h | h
      · rw [hcw] at h
        exact absurd h (by decide)
      · simpa using h
  rw [if_neg (by simp [hramp2])]
  split_ifs <;> simp

/-- The reason of a pushed summary equals the session's stop reason as mapped
from the error result: the patch cases in
`push_continuous_inventory_summary_packet` agree with
`ex10_result_to_continuous_inventory_error`. -/
theorem push_reason_of_stop_reason (r : Ex10ReaderPrivate) (ts : Nat) (res : Ex10Result)
    (h : r.inventory_state.stop_reason = ex10_result_to_continuous_inventory_error res) :
    ∃ summary, push_continuous_inventory_summary_packet r ts res =
      .summaryPacket summary ts ∧
      summary.reason = ex10_result_to_continuous_inventory_error res := by
  unfold push_continuous_inventory_summary_packet
  dsimp only
  by_cases herr : res.error = true
  · rw [if_pos herr]
    by_cases hm : res.module = .Ex10ModuleDevice
    · rw [if_pos hm]
      cases hd : res.device_code <;>
        exact ⟨_, rfl, by
          unfold ex10_result_to_continuous_inventory_error
          rw [if_neg (by simp [herr]), if_pos hm, hd]
          try simp [h, ex10_result_to_continuous_inventory_error, herr, hm, hd]⟩
    · rw [if_neg hm]
      cases hs : res.sdk_code <;>
        exact ⟨_, rfl, by
          unfold ex10_result_to_continuous_inventory_error
          rw [if_neg (by simp [herr]), if_neg hm, hs]
          try simp [h, ex10_result_to_continuous_inventory_error, herr, hm, hs]⟩
  · rw [if_neg herr]
    exact ⟨_, rfl, h⟩

/-- `handle_continuous_inventory_error`: the result packet precedes the final
summary, the session is idled, and both the summary's reason and the session's
stop reason are the error's mapped stop reason. -/
theorem handle_error_packets (r : Ex10ReaderPrivate) (res : Ex10Result) (ts : Nat) :
    ∃ summary,
      (handle_continuous_inventory_error r res ts).2 =
        [EmittedPacket.ex10ResultPacket res ts, EmittedPacket.summaryPacket summary ts] ∧
      summary.reason = ex10_result_to_continuous_inventory_error res ∧
      (handle_continuous_inventory_error r res ts).1.inventory_state.state = .InvIdle ∧
      (handle_continuous_inventory_error r res ts).1.inventory_state.stop_reason =
        ex10_result_to_continuous_inventory_error res := by
  unfold handle_continuous_inventory_error
  dsimp only [make_ex10_result_fifo_packet]
  obtain ⟨summary, heq, hr⟩ := push_reason_of_stop_reason
    { r with
      inventory_state :=
        { r.inventory_state with
          state := .InvIdle
          stop_reason := ex10_result_to_continuous_inventory_error res } } ts res rfl
  exact ⟨summary, by rw [heq], hr, rfl, rfl⟩

/-- Fields of `handle_continuous_inventory_error` untouched by error handling. -/
theorem handle_error_fields (r : Ex10ReaderPrivate) (res : Ex10Result) (ts : Nat) :
    (handle_continuous_inventory_error r res ts).1.inventory_state.round_count =
      r.inventory_state.round_count ∧
    (handle_continuous_inventory_error r res ts).1.inventory_state.tag_count =
      r.inventory_state.tag_count := by
  unfold handle_continuous_inventory_error
  exact ⟨rfl, rfl⟩

/-! ## C3: Q-state carry after Regulatory, reset on Done flip, forced target A -/

/-- **C3**: in a continuing session, a round re-issued after a `Regulatory`
summary (with the dual-target power-cycle reset not applying) carries that
summary's `final_q`, `min_q_count` and `queries_since_valid_epc_count`; after a
`Done` summary in a dual-target session the next round uses `initial_config`'s
`initial_q` with zeroed counters and the flipped (or force-reset) target; and
whenever the carrier is off and the Gen2 session number is 0, a dual-target
continuation force-resets to target A with reset Q; when the device cooperates
the continuation round is actually issued. -/
theorem C3_q_state_carry_and_reset (env : DeviceEnv) (r : Ex10ReaderPrivate)
    (p : EventFifoPacket)
    (hstate : ¬(r.inventory_state.state = .InvIdle))
    (htype : p.packet_type = .InventoryRoundSummary) :
    ((p.inventory_round_summary.reason = InventorySummaryRegulatory →
      ¬(r.inventory_params.dual_target = true ∧ env.cw_is_on = false ∧
        r.inventory_params.inventory_config.session = 0) →
      ∀ c1 c2 s, DeviceCommand.RunInventory c1 c2 s ∈ (fifo_step env r p).2.2 →
        c1.initial_q = p.inventory_round_summary.final_q ∧
        c2.starting_min_q_count = p.inventory_round_summary.min_q_count ∧
        c2.starting_max_queries_since_valid_epc_count =
          p.inventory_round_summary.queries_since_valid_epc_count)) ∧
    ((p.inventory_round_summary.reason = InventorySummaryDone →
      r.inventory_params.dual_target = true →
      ∀ c1 c2 s, DeviceCommand.RunInventory c1 c2 s ∈ (fifo_step env r p).2.2 →
        c1.initial_q = r.inventory_state.initial_inventory_config.initial_q ∧
        c2.starting_min_q_count = 0 ∧
        c2.starting_max_queries_since_valid_epc_count = 0 ∧
        c1.target =
          (if env.cw_is_on = false ∧ r.inventory_params.inventory_config.session = 0
            then target_A else r.inventory_state.target ^^^ 1))) ∧
    ((r.inventory_params.dual_target = true → env.cw_is_on = false →
      r.inventory_params.inventory_config.session = 0 →
      ∀ c1 c2 s, DeviceCommand.RunInventory c1 c2 s ∈ (fifo_step env r p).2.2 →
        c1.target = target_A ∧
        c1.initial_q = r.inventory_state.initial_inventory_config.initial_q ∧
        c2.starting_min_q_count = 0 ∧
        c2.starting_max_queries_since_valid_epc_count = 0)) ∧
    (env.is_op_currently_running = false →
      env.set_rf_mode_result.error = false →
      (env.cw_is_on = true ∨ (headResult env.ramp_results).error = false) →
      (round_summary_update r p).1.error = false →
      (check_stop_conditions (round_summary_update r p).2 p.us_counter).1 = false →
      ∃ c1 c2 s, DeviceCommand.RunInventory c1 c2 s ∈ (fifo_step env r p).2.2) := by
  obtain ⟨hparams, _, _, _, htarget, hinit, hdone, hmin, hqueries⟩ :=
    round_summary_update_fields r p
  refine ⟨?_, ?_, ?_, ?_⟩
  · intro hreason hnof c1 c2 s hmem
    obtain ⟨hc1, hc2⟩ := fifo_step_run_mem env r p c1 c2 s hmem
    have hrd : (round_summary_update r p).2.inventory_state.done_reason =
        InventorySummaryRegulatory := by rw [hdone, hreason]
    have hcrt := crt_not_done_no_override env (round_summary_update r p).2
      (by rw [hrd]; decide) (by rw [hparams]; exact hnof)
    obtain ⟨ha, hb, hc, _⟩ := continue_configs_of_carry env (round_summary_update r p).2
      (by rw [hcrt]; simp) hrd
    obtain ⟨_, hprevq⟩ := round_summary_update_regulatory r p hreason
    rw [hc1, hc2]
    exact ⟨by rw [ha, hprevq], by rw [hb, hmin], by rw [hc, hqueries]⟩
  · intro hreason hdual c1 c2 s hmem
    obtain ⟨hc1, hc2⟩ := fifo_step_run_mem env r p c1 c2 s hmem
    have hrd : (round_summary_update r p).2.inventory_state.done_reason =
        InventorySummaryDone := by rw [hdone, hreason]
    by_cases hov : env.cw_is_on = false ∧ r.inventory_params.inventory_config.session = 0
    · have hcrt := crt_override env (round_summary_update r p).2
        (by rw [hparams]; exact hdual) hov.1 (by rw [hparams]; exact hov.2)
      obtain ⟨ha, hb, hc, ht⟩ := continue_configs_of_reset env (round_summary_update r p).2
        (by rw [hcrt])
      rw [hc1, hc2]
      exact ⟨by rw [ha, hinit], by rw [hb], by rw [hc],
        by rw [ht, hcrt, if_pos hov]⟩
    · have hcrt := crt_done_dual_no_override env (round_summary_update r p).2 hrd
        (by rw [hparams]; exact hdual) (by rw [hparams]; exact hov)
      obtain ⟨ha, hb, hc, ht⟩ := continue_configs_of_reset env (round_summary_update r p).2
        (by rw [hcrt])
      rw [hc1, hc2]
      exact ⟨by rw [ha, hinit], by rw [hb], by rw [hc],
        by rw [ht, hcrt, htarget, if_neg hov]⟩
  · intro hdual hcw hsess c1 c2 s hmem
    obtain ⟨hc1, hc2⟩ := fifo_step_run_mem env r p c1 c2 s hmem
    have hcrt := crt_override env (round_summary_update r p).2
      (by rw [hparams]; exact hdual) hcw (by rw [hparams]; exact hsess)
    obtain ⟨ha, hb, hc, ht⟩ := continue_configs_of_reset env (round_summary_update r p).2
      (by rw [hcrt])
    rw [hc1, hc2]
    exact ⟨by rw [ht, hcrt], by rw [ha, hinit], by rw [hb], by rw [hc]⟩
  · intro hop hrf hramp hok hcont
    have hid := (check_stop_conditions_false_id (round_summary_update r p).2 p.us_counter
      hcont).1
    unfold fifo_step
    dsimp only
    rw [if_neg hstate, if_neg (show ¬(p.packet_type = .TagRead) by rw [htype]; decide),
      if_pos htype, if_neg (by simp [hok]), if_neg (by simp [hcont]), hid]
    have hrun := start_inventory_run_exists env
      { (round_summary_update r p).2 with
        inventory_state :=
          { (round_summary_update r p).2.inventory_state with
            target := (continue_reset_and_target env (round_summary_update r p).2).2 } }
      (round_summary_update r p).2.inventory_params.antenna
      (round_summary_update r p).2.inventory_params.rf_mode
      (round_summary_update r p).2.inventory_params.tx_power_cdbm
      (continue_configs env (round_summary_update r p).2).1
      (continue_configs env (round_summary_update r p).2).2
      (round_summary_update r p).2.inventory_params.send_selects
      (round_summary_update r p).2.inventory_params.remain_on hop hrf hramp
    refine ⟨(continue_configs env (round_summary_update r p).2).1,
      (continue_configs env (round_summary_update r p).2).2,
      (round_summary_update r p).2.inventory_params.send_selects, ?_⟩
    unfold continue_continuous_inventory
    dsimp only
    split_ifs <;> exact hrun

/-- Dual-target session fixture for C3: ongoing, stored config
`sample_config`, no stop bounds. -/
def c3_reader : Ex10ReaderPrivate :=
  { inventory_params :=
      { reader_init.inventory_params with
        inventory_config := sample_config
        inventory_config_2 := sample_config_2
        dual_target := true }
    inventory_state :=
      { reader_init.inventory_state with
        state := .InvOngoing
        initial_inventory_config := sample_config } }

/-- A `Regulatory` round summary carrying Q state. -/
def c3_packet_regulatory : EventFifoPacket :=
  { packet_type := .InventoryRoundSummary
    us_counter := 100
    inventory_round_summary :=
      { duration_us := 0
        final_q := 9
        min_q_count := 5
        queries_since_valid_epc_count := 11
        reason := InventorySummaryRegulatory }
    is_valid := true }

/-- The round configuration the continuation issues in the C3 witness run. -/
def c3_run_config : InventoryRoundControlFields :=
  { initial_q := 9, session := 1, target := 0, other_fields := 7 }

def c3_run_config_2 : InventoryRoundControl_2Fields :=
  { starting_min_q_count := 5
    starting_max_queries_since_valid_epc_count := 11
    other_fields := 3 }

/-- Witness for C3: the re-issued round after a Regulatory summary carries the
summary's Q state. -/
theorem C3_q_state_carry_and_reset_witness :
    c3_run_config.initial_q = c3_packet_regulatory.inventory_round_summary.final_q ∧
    c3_run_config_2.starting_min_q_count =
      c3_packet_regulatory.inventory_round_summary.min_q_count ∧
    c3_run_config_2.starting_max_queries_since_valid_epc_count =
      c3_packet_regulatory.inventory_round_summary.queries_since_valid_epc_count :=
  (C3_q_state_carry_and_reset env_cw_on_ok c3_reader c3_packet_regulatory
    (by decide) (by decide)).1 (by decide) (by decide)
    c3_run_config c3_run_config_2 false (by decide)

/-! ## C4: mid-session errors become result + summary packets -/

/-- **C4**: a device/SDK error raised while handling a round-summary packet of
an ongoing session — an error-classified summary reason or a failure when
issuing the next round — is never returned: the handler enqueues a synthetic
result packet carrying the `Ex10Result` (operation id and error code) followed
by the terminating `ContinuousInventorySummary`, returns the phase to `Idle`,
and the summary's reason reflects the error; an `EventFifoFull` reason maps to
the `EventFifoFull` SDK error and the `SRDeviceEventFifoFull` reason. -/
theorem C4_errors_become_packets (env : DeviceEnv) (r : Ex10ReaderPrivate)
    (p : EventFifoPacket)
    (hstate : ¬(r.inventory_state.state = .InvIdle))
    (htype : p.packet_type = .InventoryRoundSummary) :
    ((round_summary_update r p).1.error = true →
      ∃ summary,
        (fifo_step env r p).2.1 =
          [EmittedPacket.ex10ResultPacket (round_summary_update r p).1 p.us_counter,
           EmittedPacket.summaryPacket summary p.us_counter] ∧
        summary.reason =
          ex10_result_to_continuous_inventory_error (round_summary_update r p).1 ∧
        (fifo_step env r p).1.inventory_state.state = .InvIdle ∧
        (fifo_step env r p).1.inventory_state.stop_reason =
          ex10_result_to_continuous_inventory_error (round_summary_update r p).1) ∧
    ((round_summary_update r p).1.error = false →
      (check_stop_conditions (round_summary_update r p).2 p.us_counter).1 = false →
      (continue_continuous_inventory env (round_summary_update r p).2).1.error = true →
      ∃ summary,
        (fifo_step env r p).2.1 =
          [EmittedPacket.ex10ResultPacket
            (continue_continuous_inventory env (round_summary_update r p).2).1 p.us_counter,
           EmittedPacket.summaryPacket summary p.us_counter] ∧
        summary.reason = ex10_result_to_continuous_inventory_error
          (continue_continuous_inventory env (round_summary_update r p).2).1 ∧
        (fifo_step env r p).1.inventory_state.state = .InvIdle) ∧
    (p.inventory_round_summary.reason = InventorySummaryEventFifoFull →
      (round_summary_update r p).1 =
        make_ex10_sdk_error .Ex10ModuleReader .Ex10SdkEventFifoFull ∧
      ex10_result_to_continuous_inventory_error (round_summary_update r p).1 =
        .SRDeviceEventFifoFull) := by
  refine ⟨?_, ?_, ?_⟩
  · intro herr
    unfold fifo_step
    dsimp only
    rw [if_neg hstate, if_neg (show ¬(p.packet_type = .TagRead) by rw [htype]; decide),
      if_pos htype, if_pos herr]
    obtain ⟨summary, heq, hr, hst, hsr⟩ := handle_error_packets
      (round_summary_update r p).2 (round_summary_update r p).1 p.us_counter
    exact ⟨summary, heq, hr, hst, hsr⟩
  · intro hok hcont herr2
    have hid := (check_stop_conditions_false_id (round_summary_update r p).2 p.us_counter
      hcont).1
    unfold fifo_step
    dsimp only
    rw [if_neg hstate, if_neg (show ¬(p.packet_type = .TagRead) by rw [htype]; decide),
      if_pos htype, if_neg (by simp [hok]), if_neg (by simp [hcont]), hid,
      if_pos herr2]
    obtain ⟨summary, heq, hr, hst, _⟩ := handle_error_packets
      (continue_continuous_inventory env (round_summary_update r p).2).2.1
      (continue_continuous_inventory env (round_summary_update r p).2).1 p.us_counter
    exact ⟨summary, heq, hr, hst⟩
  · intro hreason
    have h1 : (round_summary_update r p).1 =
        make_ex10_sdk_error .Ex10ModuleReader .Ex10SdkEventFifoFull := by
      unfold round_summary_update
      dsimp only
      rw [hreason]
      norm_num [InventorySummaryEventFifoFull, InventorySummaryDone,
        InventorySummaryHost, InventorySummaryRegulatory,
        InventorySummaryUnsupported, InventorySummaryTxNotRampedUp]
    exact ⟨h1, by rw [h1]; decide⟩

/-- An `EventFifoFull` round summary at time 777. -/
def c4_packet : EventFifoPacket :=
  { packet_type := .InventoryRoundSummary
    us_counter := 777
    inventory_round_summary :=
      { duration_us := 0
        final_q := 0
        min_q_count := 0
        queries_since_valid_epc_count := 0
        reason := InventorySummaryEventFifoFull }
    is_valid := true }

/-- Witness for C4 (Scenario C shape): the `EventFifoFull` reason is mapped to
the SDK error and its stop reason at a concrete ongoing session. -/
theorem C4_errors_become_packets_witness :
    (round_summary_update c2_reader c4_packet).1 =
      make_ex10_sdk_error .Ex10ModuleReader .Ex10SdkEventFifoFull ∧
    ex10_result_to_continuous_inventory_error (round_summary_update c2_reader c4_packet).1 =
      .SRDeviceEventFifoFull :=
  (C4_errors_become_packets env_op_running c2_reader c4_packet
    (by decide) (by decide)).2.2 (by decide)

/-! ## C5: the stop reason is sticky -/

/-- Within one session, a set stop reason implies the session has already been
idled: the property every reachable session state satisfies. -/
def session_stop_invariant (r : Ex10ReaderPrivate) : Prop :=
  r.inventory_state.stop_reason ≠ .SRNone → r.inventory_state.state = .InvIdle

theorem fifo_step_sticky (env : DeviceEnv) (r : Ex10ReaderPrivate) (p : EventFifoPacket)
    (hinv : session_stop_invariant r) :
    session_stop_invariant (fifo_step env r p).1 ∧
    (r.inventory_state.stop_reason ≠ .SRNone → (fifo_step env r p).1 = r) := by
  by_cases hsr : r.inventory_state.stop_reason = .SRNone
  case neg =>
    have hidle := hinv hsr
    have hstep : (fifo_step env r p).1 = r := by
      unfold fifo_step
      rw [if_pos hidle]
    exact ⟨by rw [hstep]; exact hinv, fun _ => hstep⟩
  case pos =>
    refine ⟨?_, fun h => absurd hsr h⟩
    unfold fifo_step
    dsimp only
    by_cases h1 : r.inventory_state.state = .InvIdle
    · rw [if_pos h1]
      exact hinv
    rw [if_neg h1]
    by_cases h2 : p.packet_type = .TagRead
    · rw [if_pos h2]
      exact fun hh => absurd hsr hh
    rw [if_neg h2]
    by_cases h3 : p.packet_type = .InventoryRoundSummary
    case neg =>
      rw [if_neg h3]
      exact hinv
    rw [if_pos h3]
    by_cases h4 : (round_summary_update r p).1.error = true
    · rw [if_pos h4]
      exact fun _ => rfl
    rw [if_neg h4]
    by_cases h5 : (check_stop_conditions (round_summary_update r p).2 p.us_counter).1 = true
    · rw [if_pos h5]
      exact fun _ => rfl
    rw [if_neg h5]
    have hid := (check_stop_conditions_false_id (round_summary_update r p).2 p.us_counter
      (by simpa using h5)).1
    rw [hid]
    by_cases h6 : (continue_continuous_inventory env (round_summary_update r p).2).1.error = true
    · rw [if_pos h6]
      exact fun _ => rfl
    · rw [if_neg h6]
      intro hh
      exfalso
      apply hh
      rw [continue_reader_eq]
      exact ((round_summary_update_fields r p).2.2.1).trans hsr

theorem fifo_data_handler_sticky (env : DeviceEnv) (ps : List EventFifoPacket) :
    ∀ r : Ex10ReaderPrivate, session_stop_invariant r →
      r.inventory_state.stop_reason ≠ .SRNone →
      (fifo_data_handler env r ps).1 = r := by
  induction ps with
  | nil =>
    intro r _ _
    rfl
  | cons p rest ih =>
    intro r hinv hne
    unfold fifo_data_handler
    dsimp only
    by_cases hv : p.is_valid = false
    · rw [if_pos hv]
    · rw [if_neg hv]
      dsimp only
      rw [(fifo_step_sticky env r p hinv).2 hne]
      exact ih r hinv hne

/-- **C5**: once `stop_reason` is set it never changes for the rest of the
session: `check_stop_conditions` returns immediately (reader unchanged) when a
reason is already set, the conditions are evaluated in the order rounds, tags,
duration, host stop request with the first true one winning, and packet
processing leaves a session with a set stop reason entirely untouched. -/
theorem C5_stop_reason_first_set_wins :
    (∀ (r : Ex10ReaderPrivate) (ts : Nat),
      r.inventory_state.stop_reason ≠ .SRNone →
      check_stop_conditions r ts = (true, r)) ∧
    (∀ (r : Ex10ReaderPrivate) (ts : Nat),
      r.inventory_state.stop_reason = .SRNone →
      (((r.inventory_params.stop_conditions.max_number_of_rounds > 0 ∧
          r.inventory_state.round_count ≥
            r.inventory_params.stop_conditions.max_number_of_rounds) →
        (check_stop_conditions r ts).2.inventory_state.stop_reason =
          .SRMaxNumberOfRounds) ∧
       (¬(r.inventory_params.stop_conditions.max_number_of_rounds > 0 ∧
          r.inventory_state.round_count ≥
            r.inventory_params.stop_conditions.max_number_of_rounds) →
        (r.inventory_params.stop_conditions.max_number_of_tags > 0 ∧
          r.inventory_state.tag_count ≥
            r.inventory_params.stop_conditions.max_number_of_tags) →
        (check_stop_conditions r ts).2.inventory_state.stop_reason =
          .SRMaxNumberOfTags) ∧
       (¬(r.inventory_params.stop_conditions.max_number_of_rounds > 0 ∧
          r.inventory_state.round_count ≥
            r.inventory_params.stop_conditions.max_number_of_rounds) →
        ¬(r.inventory_params.stop_conditions.max_number_of_tags > 0 ∧
          r.inventory_state.tag_count ≥
            r.inventory_params.stop_conditions.max_number_of_tags) →
        (r.inventory_params.stop_conditions.max_duration_us > 0 ∧
          elapsed_us r ts ≥ r.inventory_params.stop_conditions.max_duration_us) →
        (check_stop_conditions r ts).2.inventory_state.stop_reason = .SRMaxDuration) ∧
       (¬(r.inventory_params.stop_conditions.max_number_of_rounds > 0 ∧
          r.inventory_state.round_count ≥
            r.inventory_params.stop_conditions.max_number_of_rounds) →
        ¬(r.inventory_params.stop_conditions.max_number_of_tags > 0 ∧
          r.inventory_state.tag_count ≥
            r.inventory_params.stop_conditions.max_number_of_tags) →
        ¬(r.inventory_params.stop_conditions.max_duration_us > 0 ∧
          elapsed_us r ts ≥ r.inventory_params.stop_conditions.max_duration_us) →
        r.inventory_state.state = .InvStopRequested →
        (check_stop_conditions r ts).2.inventory_state.stop_reason = .SRHost))) ∧
    (∀ (env : DeviceEnv) (r : Ex10ReaderPrivate) (ps : List EventFifoPacket),
      session_stop_invariant r →
      r.inventory_state.stop_reason ≠ .SRNone →
      (fifo_data_handler env r ps).1 = r) := by
  refine ⟨?_, ?_, fun env r ps => fifo_data_handler_sticky env ps r⟩
  · intro r ts h
    unfold check_stop_conditions
    dsimp only
    rw [if_pos h]
  · intro r ts h
    have hn : ¬(r.inventory_state.stop_reason ≠ StopReason.SRNone) := by simp [h]
    refine ⟨?_, ?_, ?_, ?_⟩
    · intro hc
      unfold check_stop_conditions
      dsimp only
      rw [if_neg hn, if_pos hc]
      rfl
    · intro hnc hc
      unfold check_stop_conditions
      dsimp only
      rw [if_neg hn, if_neg hnc, if_pos hc]
      rfl
    · intro hnc1 hnc2 hc
      unfold check_stop_conditions
      dsimp only
      rw [if_neg hn, if_neg hnc1, if_neg hnc2, if_pos hc]
      rfl
    · intro hnc1 hnc2 hnc3 hc
      unfold check_stop_conditions
      dsimp only
      rw [if_neg hn, if_neg hnc1, if_neg hnc2, if_neg hnc3, if_pos hc]
      rfl

/-- An idled session with a set stop reason. -/
def c5_reader : Ex10ReaderPrivate :=
  { reader_init with
    inventory_state := { reader_init.inventory_state with stop_reason := .SRHost } }

/-- Witness for C5: a session whose reason is already set is untouched by
`check_stop_conditions` and by a whole buffer of packets. -/
theorem C5_stop_reason_first_set_wins_witness :
    check_stop_conditions c5_reader 0 = (true, c5_reader) ∧
    (fifo_data_handler env_op_running c5_reader [c2_packet]).1 = c5_reader :=
  ⟨C5_stop_reason_first_set_wins.1 c5_reader 0 (by decide),
   C5_stop_reason_first_set_wins.2.2 env_op_running c5_reader [c2_packet]
     (fun _ => rfl) (by decide)⟩

/-! ## C6: round counting -/

/-- **C6**: processing an `InventoryRoundSummary` packet in an ongoing session
increments `round_count` exactly when the summary's reason is `Done` or `Host`;
`Regulatory`, `Unsupported` and `TxNotRampedUp` never increment it. -/
theorem C6_round_counting (env : DeviceEnv) (r : Ex10ReaderPrivate) (p : EventFifoPacket)
    (hstate : ¬(r.inventory_state.state = .InvIdle))
    (htype : p.packet_type = .InventoryRoundSummary) :
    (fifo_step env r p).1.inventory_state.round_count =
      r.inventory_state.round_count +
        (if p.inventory_round_summary.reason = InventorySummaryDone ∨
            p.inventory_round_summary.reason = InventorySummaryHost then 1 else 0) ∧
    (p.inventory_round_summary.reason = InventorySummaryRegulatory ∨
        p.inventory_round_summary.reason = InventorySummaryUnsupported ∨
        p.inventory_round_summary.reason = InventorySummaryTxNotRampedUp →
      (fifo_step env r p).1.inventory_state.round_count =
        r.inventory_state.round_count) := by
  have key : (fifo_step env r p).1.inventory_state.round_count =
      (round_summary_update r p).2.inventory_state.round_count := by
    unfold fifo_step
    dsimp only
    rw [if_neg hstate, if_neg (show ¬(p.packet_type = .TagRead) by rw [htype]; decide),
      if_pos htype]
    by_cases h4 : (round_summary_update r p).1.error = true
    · rw [if_pos h4]
      exact (handle_error_fields (round_summary_update r p).2 (round_summary_update r p).1
        p.us_counter).1
    rw [if_neg h4]
    by_cases h5 : (check_stop_conditions (round_summary_update r p).2 p.us_counter).1 = true
    · rw [if_pos h5]
      exact (check_stop_conditions_fields (round_summary_update r p).2 p.us_counter).2.2.1
    rw [if_neg h5]
    have hid := (check_stop_conditions_false_id (round_summary_update r p).2 p.us_counter
      (by simpa using h5)).1
    rw [hid]
    by_cases h6 : (continue_continuous_inventory env (round_summary_update r p).2).1.error = true
    · rw [if_pos h6]
      exact (handle_error_fields
        (continue_continuous_inventory env (round_summary_update r p).2).2.1
        (continue_continuous_inventory env (round_summary_update r p).2).1
        p.us_counter).1.trans (by rw [continue_reader_eq])
    · rw [if_neg h6]
      rw [continue_reader_eq]
  refine ⟨by rw [key, round_summary_update_round_count], ?_⟩
  intro h
  rw [key, round_summary_update_round_count]
  rcases h with h | h | h <;>
    rw [h] <;>
      norm_num [InventorySummaryRegulatory, InventorySummaryUnsupported,
        InventorySummaryTxNotRampedUp, InventorySummaryDone, InventorySummaryHost]

/-- Witness for C6 at the concrete `Done` summary: the round is counted. -/
theorem C6_round_counting_witness :
    (fifo_step env_op_running c2_reader c2_packet).1.inventory_state.round_count =
      c2_reader.inventory_state.round_count +
        (if c2_packet.inventory_round_summary.reason = InventorySummaryDone ∨
            c2_packet.inventory_round_summary.reason = InventorySummaryHost
          then 1 else 0) ∧
    (c2_packet.inventory_round_summary.reason = InventorySummaryRegulatory ∨
        c2_packet.inventory_round_summary.reason = InventorySummaryUnsupported ∨
        c2_packet.inventory_round_summary.reason = InventorySummaryTxNotRampedUp →
      (fifo_step env_op_running c2_reader c2_packet).1.inventory_state.round_count =
        c2_reader.inventory_state.round_count) :=
  C6_round_counting env_op_running c2_reader c2_packet (by decide) (by decide)

end E710
